import Mathlib

/-!
# Verification of the Ava Bot MCP server's registry and dispatch core

Shallow embedding of `src/mcp_server/run_server.py`: the JSON value model used
for provider parameters and results, the serializer (`json.dumps` with default
separators) and deserializer (`json.loads` on the canonical serialized form),
the dispatcher (`AvaBotServicer.ExecuteTool`), the catalog builder
(`CleanMCPServer.get_available_tools` and `AvaBotServicer.ListTools`),
the silent adapter loader (`SilentAdapterLoader.load_all_adapters`), and the
servicer's request counter.
-/

set_option maxHeartbeats 1000000

namespace AvaMcp

/-- A JSON-representable Python value: the shape of deserialized tool
parameters and of serializable provider raw results.  Numbers are modelled as
integers (the values appearing in the dispatch path carry no floats). -/
inductive Json where
  | null
  | bool (b : Bool)
  | num (n : Int)
  | str (s : String)
  | arr (elements : List Json)
  | obj (fields : List (String × Json))

/-- First-match association lookup on an object's fields, modelling Python
dict lookup (dicts produced by `json.loads` or Python literals have unique
keys, so first match is the match). -/
def fieldLookup : List (String × Json) → String → Option Json
  | [], _ => none
  | (k, v) :: rest, key => if k = key then some v else fieldLookup rest key

/-- `key in d` on a Python dict. -/
def hasField (fields : List (String × Json)) (key : String) : Bool :=
  (fieldLookup fields key).isSome

/-! ## Serialization: `json.dumps` with the default separators `", "` / `": "`

Characters are produced as a `List Char`.  String escaping covers the
backslash and the double quote, the two escapes exercised by the values this
server handles. -/

/-- Escape the characters of a JSON string body. -/
def escapeChars : List Char → List Char
  | [] => []
  | c :: cs =>
    if c = '"' ∨ c = '\\' then '\\' :: c :: escapeChars cs
    else c :: escapeChars cs

/-- A serialized JSON string: body escaped, wrapped in double quotes. -/
def encString (s : String) : List Char := '"' :: (escapeChars s.data ++ ['"'])

/-- The decimal digits of a natural number, most significant first. -/
def natChars (n : Nat) : List Char :=
  if h : n < 10 then [Char.ofNat (48 + n)]
  else natChars (n / 10) ++ [Char.ofNat (48 + n % 10)]
  decreasing_by exact Nat.div_lt_self (by omega) (by omega)

/-- The decimal rendering of an integer, as `json.dumps` prints it. -/
def intChars (n : Int) : List Char :=
  if n < 0 then '-' :: natChars n.natAbs else natChars n.natAbs

/-- The keyword `null` as characters. -/
def nullChars : List Char := ['n', 'u', 'l', 'l']

/-- The keyword `true` as characters. -/
def trueChars : List Char := ['t', 'r', 'u', 'e']

/-- The keyword `false` as characters. -/
def falseChars : List Char := ['f', 'a', 'l', 's', 'e']

mutual

/-- Serialize one value: `json.dumps` with Python's default separators. -/
def dumpChars : Json → List Char
  | .null => nullChars
  | .bool true => trueChars
  | .bool false => falseChars
  | .num n => intChars n
  | .str s => encString s
  | .arr [] => ['[', ']']
  | .arr (x :: xs) => '[' :: (dumpChars x ++ dumpArrRest xs ++ [']'])
  | .obj [] => ['\x7b', '\x7d']
  | .obj ((k, v) :: kvs) =>
      '\x7b' :: (encString k ++ ':' :: ' ' :: dumpChars v ++ dumpObjRest kvs ++ ['\x7d'])

/-- Serialize the remaining elements of an array, each preceded by `", "`. -/
def dumpArrRest : List Json → List Char
  | [] => []
  | x :: xs => ',' :: ' ' :: (dumpChars x ++ dumpArrRest xs)

/-- Serialize the remaining members of an object, each preceded by `", "`. -/
def dumpObjRest : List (String × Json) → List Char
  | [] => []
  | (k, v) :: kvs => ',' :: ' ' :: (encString k ++ ':' :: ' ' :: dumpChars v ++ dumpObjRest kvs)

end

/-- `json.dumps`: the full lossless serialization of a value. -/
def Json.dumps (v : Json) : String := String.mk (dumpChars v)

/-! ## Deserialization: `json.loads` on the canonical serialized form

A recursive-descent parser over the character list, with a fuel bound on
nesting depth.  It accepts exactly the canonical form emitted by the
serializer above (Python's `json.loads` accepts this form and more; every
claim exercises it on serializer output or on manifestly malformed text). -/

/-- Split a maximal run of decimal digits off the front of the input. -/
def takeDigits : List Char → List Char × List Char
  | [] => ([], [])
  | c :: cs =>
    if c.isDigit then
      let p := takeDigits cs
      (c :: p.1, p.2)
    else ([], c :: cs)

/-- The numeric value of a digit run, most significant first. -/
def digitsVal (ds : List Char) : Nat :=
  ds.foldl (fun a c => a * 10 + (c.toNat - 48)) 0

/-- Parse a nonempty digit run as a natural number. -/
def parseNat (input : List Char) : Option (Nat × List Char) :=
  let p := takeDigits input
  if p.1 = [] then none else some (digitsVal p.1, p.2)

/-- Parse the body of a JSON string after its opening quote, undoing the
escapes the serializer introduces, up to and including the closing quote. -/
def parseStringBody : List Char → Option (List Char × List Char)
  | [] => none
  | c :: rest =>
    if c = '"' then some ([], rest)
    else if c = '\\' then
      match rest with
      | [] => none
      | e :: rest2 =>
        if e = '"' ∨ e = '\\' then (parseStringBody rest2).map (fun p => (e :: p.1, p.2))
        else none
    else (parseStringBody rest).map (fun p => (c :: p.1, p.2))

mutual

/-- Parse one JSON value. -/
def parseVal : Nat → List Char → Option (Json × List Char)
  | 0, _ => none
  | f + 1, input =>
    match input with
    | [] => none
    | c :: rest =>
      if c = 'n' then
        match rest with
        | 'u' :: 'l' :: 'l' :: r => some (.null, r)
        | _ => none
      else if c = 't' then
        match rest with
        | 'r' :: 'u' :: 'e' :: r => some (.bool true, r)
        | _ => none
      else if c = 'f' then
        match rest with
        | 'a' :: 'l' :: 's' :: 'e' :: r => some (.bool false, r)
        | _ => none
      else if c = '"' then
        (parseStringBody rest).map (fun p => (.str (String.mk p.1), p.2))
      else if c = '-' then
        (parseNat rest).map (fun p => (.num (-(p.1 : Int)), p.2))
      else if c = '[' then
        match rest with
        | [] => none
        | c2 :: r2 =>
          if c2 = ']' then some (.arr [], r2)
          else
            match parseVal f (c2 :: r2) with
            | none => none
            | some (v, r3) =>
              match parseArrTail f r3 with
              | none => none
              | some (vs, r4) => some (.arr (v :: vs), r4)
      else if c = '\x7b' then
        match rest with
        | [] => none
        | c2 :: r2 =>
          if c2 = '\x7d' then some (.obj [], r2)
          else if c2 = '"' then
            match parseStringBody r2 with
            | none => none
            | some (kcs, r3) =>
              match r3 with
              | ':' :: ' ' :: r4 =>
                match parseVal f r4 with
                | none => none
                | some (v, r5) =>
                  match parseObjTail f r5 with
                  | none => none
                  | some (kvs, r6) => some (.obj ((String.mk kcs, v) :: kvs), r6)
              | _ => none
          else none
      else if c.isDigit then
        (parseNat (c :: rest)).map (fun p => (.num (p.1 : Int), p.2))
      else none

/-- Parse the elements of an array after its first one: either the closing
bracket or a `", "` separator followed by a value. -/
def parseArrTail : Nat → List Char → Option (List Json × List Char)
  | 0, _ => none
  | f + 1, input =>
    match input with
    | ']' :: rest => some ([], rest)
    | ',' :: ' ' :: rest =>
      match parseVal f rest with
      | none => none
      | some (v, r1) =>
        match parseArrTail f r1 with
        | none => none
        | some (vs, r2) => some (v :: vs, r2)
    | _ => none

/-- Parse the members of an object after its first one: either the closing
brace or a `", "` separator followed by a quoted key, `": "`, and a value. -/
def parseObjTail : Nat → List Char → Option (List (String × Json) × List Char)
  | 0, _ => none
  | f + 1, input =>
    match input with
    | '\x7d' :: rest => some ([], rest)
    | ',' :: ' ' :: '"' :: rest =>
      match parseStringBody rest with
      | none => none
      | some (kcs, r1) =>
        match r1 with
        | ':' :: ' ' :: r2 =>
          match parseVal f r2 with
          | none => none
          | some (v, r3) =>
            match parseObjTail f r3 with
            | none => none
            | some (kvs, r4) => some ((String.mk kcs, v) :: kvs, r4)
        | _ => none
    | _ => none

end

/-- `json.loads`: deserialize, requiring the whole input to be consumed.
The fuel bound `2·|s| + 2` dominates the nesting depth of any input. -/
def Json.loads (s : String) : Option Json :=
  match parseVal (2 * s.data.length + 2) s.data with
  | some (v, []) => some v
  | _ => none

/-! ## Round-trip: the serialization is lossless -/

/-- The input does not begin with a decimal digit (so a freshly parsed
number cannot absorb characters belonging to what follows it). -/
def noDigitHead : List Char → Prop
  | [] => True
  | c :: _ => c.isDigit = false

theorem natChars_ne_nil (n : Nat) : natChars n ≠ [] := by
  rw [natChars]
  split <;> simp

theorem natChars_digits (n : Nat) : ∀ c ∈ natChars n, c.isDigit = true := by
  induction n using Nat.strong_induction_on with
  | _ n ih =>
    rw [natChars]
    split
    · next h =>
      intro c hc
      simp only [List.mem_singleton] at hc
      subst hc
      interval_cases n <;> decide
    · next h =>
      intro c hc
      simp only [List.mem_append, List.mem_singleton] at hc
      rcases hc with hc | hc
      · exact ih (n / 10) (Nat.div_lt_self (by omega) (by omega)) c hc
      · subst hc
        have h10 : n % 10 < 10 := Nat.mod_lt _ (by omega)
        interval_cases h : n % 10 <;> simp_all

theorem digitsVal_append_singleton (ds : List Char) (c : Char) :
    digitsVal (ds ++ [c]) = 10 * digitsVal ds + (c.toNat - 48) := by
  simp [digitsVal, List.foldl_append, Nat.mul_comm]

theorem digitsVal_natChars (n : Nat) : digitsVal (natChars n) = n := by
  induction n using Nat.strong_induction_on with
  | _ n ih =>
    rw [natChars]
    split
    · next h =>
      simp only [digitsVal, List.foldl]
      interval_cases n <;> decide
    · next h =>
      rw [digitsVal_append_singleton, ih (n / 10) (Nat.div_lt_self (by omega) (by omega))]
      have h10 : n % 10 < 10 := Nat.mod_lt _ (by omega)
      have : (Char.ofNat (48 + n % 10)).toNat - 48 = n % 10 := by
        interval_cases h : n % 10 <;> simp_all
      omega

theorem takeDigits_run (ds rest : List Char) (hds : ∀ c ∈ ds, c.isDigit = true)
    (hr : noDigitHead rest) : takeDigits (ds ++ rest) = (ds, rest) := by
  induction ds with
  | nil =>
    cases rest with
    | nil => rfl
    | cons c cs =>
      simp only [noDigitHead] at hr
      simp [takeDigits, hr]
  | cons c cs ih =>
    have hc : c.isDigit = true := hds c (by simp)
    simp only [List.cons_append, takeDigits, hc, if_pos, List.append_eq]
    rw [ih (fun d hd => hds d (by simp [hd]))]

theorem parseNat_run (n : Nat) (rest : List Char) (hr : noDigitHead rest) :
    parseNat (natChars n ++ rest) = some (n, rest) := by
  simp only [parseNat, takeDigits_run (natChars n) rest (natChars_digits n) hr]
  simp [natChars_ne_nil n, digitsVal_natChars n]

theorem parseStringBody_escape (cs : List Char) (rest : List Char) :
    parseStringBody (escapeChars cs ++ '"' :: rest) = some (cs, rest) := by
  induction cs with
  | nil =>
    rw [escapeChars, List.nil_append, parseStringBody.eq_def]
    simp
  | cons c cs ih =>
    by_cases h : c = '"' ∨ c = '\\'
    · rw [escapeChars, if_pos h, List.cons_append, List.cons_append,
        parseStringBody.eq_def]
      simp only [if_neg (by decide : ¬ ('\\' : Char) = '"'), if_pos rfl]
      simp [h, ih]
    · rw [escapeChars, if_neg h, List.cons_append, parseStringBody.eq_def]
      push_neg at h
      simp only [if_neg h.1, if_neg h.2]
      simp [ih]

mutual

/-- Fuel sufficient to parse one serialized value. -/
def needV : Json → Nat
  | .null => 1
  | .bool _ => 1
  | .num _ => 1
  | .str _ => 1
  | .arr xs => 1 + needArr xs
  | .obj kvs => 1 + needObj kvs

/-- Fuel sufficient to parse a serialized array tail. -/
def needArr : List Json → Nat
  | [] => 1
  | x :: xs => 1 + needV x + needArr xs

/-- Fuel sufficient to parse a serialized object tail. -/
def needObj : List (String × Json) → Nat
  | [] => 1
  | (_, v) :: kvs => 1 + needV v + needObj kvs

end

theorem intChars_ne_nil (n : Int) : intChars n ≠ [] := by
  rw [intChars]
  split
  · simp
  · exact natChars_ne_nil _

theorem noDigitHead_arrTail (xs : List Json) (rest : List Char) :
    noDigitHead (dumpArrRest xs ++ ']' :: rest) := by
  cases xs <;> simp [dumpArrRest, noDigitHead]

theorem noDigitHead_objTail (kvs : List (String × Json)) (rest : List Char) :
    noDigitHead (dumpObjRest kvs ++ '\x7d' :: rest) := by
  cases kvs with
  | nil => simp [dumpObjRest, noDigitHead]
  | cons kv kvs => obtain ⟨k, v⟩ := kv; simp [dumpObjRest, noDigitHead]

end AvaMcp
namespace AvaMcp

theorem isDigit_ne_special (d : Char) (h : d.isDigit = true) :
    d ≠ 'n' ∧ d ≠ 't' ∧ d ≠ 'f' ∧ d ≠ '"' ∧ d ≠ '-' ∧ d ≠ '[' ∧ d ≠ '\x7b' ∧ d ≠ ']' ∧ d ≠ '\x7d' := by
  refine ⟨?_, ?_, ?_, ?_, ?_, ?_, ?_, ?_, ?_⟩ <;> (intro h2; subst h2; exact absurd h (by decide))

theorem dumpChars_head_not_rbracket (v : Json) (d : Char) (tl : List Char)
    (h : dumpChars v = d :: tl) : ¬ d = ']' := by
  cases v with
  | null =>
    rw [dumpChars] at h
    unfold nullChars at h
    rw [← (List.cons.injEq ..).mp h |>.1]; decide
  | bool b =>
    cases b with
    | true =>
      rw [dumpChars] at h
      unfold trueChars at h
      rw [← (List.cons.injEq ..).mp h |>.1]; decide
    | false =>
      rw [dumpChars] at h
      unfold falseChars at h
      rw [← (List.cons.injEq ..).mp h |>.1]; decide
  | str s => rw [dumpChars, encString] at h; rw [← (List.cons.injEq ..).mp h |>.1]; decide
  | num n =>
    rw [dumpChars, intChars] at h
    split at h
    · rw [← (List.cons.injEq ..).mp h |>.1]; decide
    · intro he
      subst he
      have : ']' ∈ natChars n.natAbs := h ▸ List.mem_cons_self ..
      exact absurd (natChars_digits _ _ this) (by decide)
  | arr xs =>
    cases xs <;> (rw [dumpChars] at h; rw [← (List.cons.injEq ..).mp h |>.1]) <;> decide
  | obj kvs =>
    cases kvs with
    | nil => rw [dumpChars] at h; rw [← (List.cons.injEq ..).mp h |>.1]; decide
    | cons kv tl2 =>
      obtain ⟨k, v⟩ := kv
      rw [dumpChars] at h; rw [← (List.cons.injEq ..).mp h |>.1]; decide

end AvaMcp

namespace AvaMcp

theorem dumpChars_ne_nil (v : Json) : dumpChars v ≠ [] := by
  cases v with
  | null => simp [dumpChars, nullChars]
  | bool b => cases b <;> simp [dumpChars, trueChars, falseChars]
  | num n => simp only [dumpChars]; exact intChars_ne_nil n
  | str s => simp [dumpChars, encString]
  | arr xs => cases xs <;> simp [dumpChars]
  | obj kvs =>
    cases kvs with
    | nil => simp [dumpChars]
    | cons kv tl => obtain ⟨k, v⟩ := kv; simp [dumpChars]

mutual

theorem parseVal_dump : ∀ (v : Json) (f : Nat) (rest : List Char),
    needV v ≤ f → noDigitHead rest →
    parseVal f (dumpChars v ++ rest) = some (v, rest)
  | .null, f, rest, hf, _ => by
    obtain ⟨g, rfl⟩ : ∃ g, f = g + 1 := ⟨f - 1, by simp [needV] at hf; omega⟩
    simp [dumpChars, nullChars, parseVal]
  | .bool true, f, rest, hf, _ => by
    obtain ⟨g, rfl⟩ : ∃ g, f = g + 1 := ⟨f - 1, by simp [needV] at hf; omega⟩
    simp [dumpChars, trueChars, parseVal]
  | .bool false, f, rest, hf, _ => by
    obtain ⟨g, rfl⟩ : ∃ g, f = g + 1 := ⟨f - 1, by simp [needV] at hf; omega⟩
    simp [dumpChars, falseChars, parseVal]
  | .str s, f, rest, hf, _ => by
    obtain ⟨g, rfl⟩ : ∃ g, f = g + 1 := ⟨f - 1, by simp [needV] at hf; omega⟩
    have hs : dumpChars (Json.str s) ++ rest = '"' :: (escapeChars s.data ++ ('"' :: rest)) := by
      simp [dumpChars, encString]
    rw [hs]
    simp only [parseVal]
    norm_num
    rw [parseStringBody_escape]
    rfl
  | .num n, f, rest, hf, hr => by
    obtain ⟨g, rfl⟩ : ∃ g, f = g + 1 := ⟨f - 1, by simp [needV] at hf; omega⟩
    by_cases hneg : n < 0
    · have hs : dumpChars (Json.num n) ++ rest = '-' :: (natChars n.natAbs ++ rest) := by
        simp [dumpChars, intChars, hneg]
      rw [hs]
      simp only [parseVal]
      norm_num
      rw [parseNat_run _ _ hr]
      have hn : (-(n.natAbs : Int)) = n := by omega
      simp only [Option.map_some']
      rw [hn]
      simp
    · obtain ⟨d, tl, hd⟩ := List.exists_cons_of_ne_nil (natChars_ne_nil n.natAbs)
      have hdig : d.isDigit = true := natChars_digits _ d (hd ▸ List.mem_cons_self ..)
      obtain ⟨h1, h2, h3, h4, h5, h6, h7, h8, h9⟩ := isDigit_ne_special d hdig
      have hs : dumpChars (Json.num n) ++ rest = d :: (tl ++ rest) := by
        simp [dumpChars, intChars, hneg, hd]
      rw [hs]
      simp only [parseVal, if_neg h1, if_neg h2, if_neg h3, if_neg h4, if_neg h5, if_neg h6,
        if_neg h7, hdig, if_pos]
      rw [show d :: (tl ++ rest) = natChars n.natAbs ++ rest from by rw [hd]; rfl]
      rw [parseNat_run _ _ hr]
      have hn : ((n.natAbs : Int)) = n := by omega
      simp only [Option.map_some']
      rw [hn]
  | .arr [], f, rest, hf, _ => by
    obtain ⟨g, rfl⟩ : ∃ g, f = g + 1 := ⟨f - 1, by simp [needV, needArr] at hf; omega⟩
    simp [dumpChars, parseVal]
  | .arr (x :: xs), f, rest, hf, hr => by
    obtain ⟨g, rfl⟩ : ∃ g, f = g + 1 := ⟨f - 1, by simp [needV, needArr] at hf; omega⟩
    have hfx : needV x ≤ g := by simp [needV, needArr] at hf; omega
    have hfxs : needArr xs ≤ g := by simp [needV, needArr] at hf; omega
    obtain ⟨d, tl, hd⟩ := List.exists_cons_of_ne_nil (dumpChars_ne_nil x)
    have hne : ¬ d = ']' := dumpChars_head_not_rbracket x d tl hd
    have hs : dumpChars (Json.arr (x :: xs)) ++ rest
        = '[' :: (d :: (tl ++ (dumpArrRest xs ++ ']' :: rest))) := by
      simp [dumpChars, hd]
    rw [hs]
    simp only [parseVal]
    simp [hne]
    rw [show d :: (tl ++ (dumpArrRest xs ++ ']' :: rest))
        = dumpChars x ++ (dumpArrRest xs ++ ']' :: rest) from by rw [hd]; rfl]
    rw [parseVal_dump x g _ hfx (noDigitHead_arrTail xs rest)]
    simp only []
    rw [parseArrTail_dump xs g rest hfxs]
  | .obj [], f, rest, hf, _ => by
    obtain ⟨g, rfl⟩ : ∃ g, f = g + 1 := ⟨f - 1, by simp [needV, needObj] at hf; omega⟩
    simp [dumpChars, parseVal]
  | .obj ((k, v) :: kvs), f, rest, hf, hr => by
    obtain ⟨g, rfl⟩ : ∃ g, f = g + 1 := ⟨f - 1, by simp [needV, needObj] at hf; omega⟩
    have hfv : needV v ≤ g := by simp [needV, needObj] at hf; omega
    have hfkvs : needObj kvs ≤ g := by simp [needV, needObj] at hf; omega
    have hs : dumpChars (Json.obj ((k, v) :: kvs)) ++ rest
        = '\x7b' :: ('"' :: (escapeChars k.data ++
            ('"' :: (':' :: ' ' :: (dumpChars v ++ (dumpObjRest kvs ++ '\x7d' :: rest)))))) := by
      simp [dumpChars, encString]
    rw [hs]
    simp only [parseVal]
    simp
    rw [parseStringBody_escape]
    simp
    rw [parseVal_dump v g _ hfv (noDigitHead_objTail kvs rest)]
    simp
    rw [parseObjTail_dump kvs g rest hfkvs]

theorem parseArrTail_dump : ∀ (xs : List Json) (f : Nat) (rest : List Char),
    needArr xs ≤ f →
    parseArrTail f (dumpArrRest xs ++ ']' :: rest) = some (xs, rest)
  | [], f, rest, hf => by
    obtain ⟨g, rfl⟩ : ∃ g, f = g + 1 := ⟨f - 1, by simp [needArr] at hf; omega⟩
    simp [dumpArrRest, parseArrTail]
  | x :: xs, f, rest, hf => by
    obtain ⟨g, rfl⟩ : ∃ g, f = g + 1 := ⟨f - 1, by simp [needArr] at hf; omega⟩
    have hfx : needV x ≤ g := by simp [needArr] at hf; omega
    have hfxs : needArr xs ≤ g := by simp [needArr] at hf; omega
    have hs : dumpArrRest (x :: xs) ++ ']' :: rest
        = ',' :: ' ' :: (dumpChars x ++ (dumpArrRest xs ++ ']' :: rest)) := by
      simp [dumpArrRest]
    rw [hs]
    simp only [parseArrTail]
    rw [parseVal_dump x g _ hfx (noDigitHead_arrTail xs rest)]
    simp only []
    rw [parseArrTail_dump xs g rest hfxs]

theorem parseObjTail_dump : ∀ (kvs : List (String × Json)) (f : Nat) (rest : List Char),
    needObj kvs ≤ f →
    parseObjTail f (dumpObjRest kvs ++ '\x7d' :: rest) = some (kvs, rest)
  | [], f, rest, hf => by
    obtain ⟨g, rfl⟩ : ∃ g, f = g + 1 := ⟨f - 1, by simp [needObj] at hf; omega⟩
    simp [dumpObjRest, parseObjTail]
  | (k, v) :: kvs, f, rest, hf => by
    obtain ⟨g, rfl⟩ : ∃ g, f = g + 1 := ⟨f - 1, by simp [needObj] at hf; omega⟩
    have hfv : needV v ≤ g := by simp [needObj] at hf; omega
    have hfkvs : needObj kvs ≤ g := by simp [needObj] at hf; omega
    have hs : dumpObjRest ((k, v) :: kvs) ++ '\x7d' :: rest
        = ',' :: ' ' :: '"' :: (escapeChars k.data ++
            ('"' :: (':' :: ' ' :: (dumpChars v ++ (dumpObjRest kvs ++ '\x7d' :: rest))))) := by
      simp [dumpObjRest, encString]
    rw [hs]
    simp only [parseObjTail]
    rw [parseStringBody_escape]
    simp
    rw [parseVal_dump v g _ hfv (noDigitHead_objTail kvs rest)]
    simp
    rw [parseObjTail_dump kvs g rest hfkvs]

end

end AvaMcp

namespace AvaMcp

theorem encString_length (s : String) : 2 ≤ (encString s).length := by
  simp [encString]

mutual

theorem needV_le : ∀ v : Json, needV v ≤ 2 * (dumpChars v).length
  | .null => by simp [needV, dumpChars, nullChars]
  | .bool b => by cases b <;> simp [needV, dumpChars, trueChars, falseChars]
  | .num n => by
    have := List.length_pos.mpr (intChars_ne_nil n)
    simp only [needV, dumpChars]
    omega
  | .str s => by
    have := encString_length s
    simp only [needV, dumpChars]
    omega
  | .arr [] => by simp [needV, needArr, dumpChars]
  | .arr (x :: xs) => by
    have h1 := needV_le x
    have h2 := needArr_le xs
    simp only [needV, needArr, dumpChars, List.length_cons, List.length_append,
      List.length_singleton]
    omega
  | .obj [] => by simp [needV, needObj, dumpChars]
  | .obj ((k, v) :: kvs) => by
    have h1 := needV_le v
    have h2 := needObj_le kvs
    have h3 := encString_length k
    simp only [needV, needObj, dumpChars, List.length_cons, List.length_append,
      List.length_singleton]
    omega

theorem needArr_le : ∀ xs : List Json, needArr xs ≤ 2 * (dumpArrRest xs).length + 2
  | [] => by simp [needArr, dumpArrRest]
  | x :: xs => by
    have h1 := needV_le x
    have h2 := needArr_le xs
    simp only [needArr, dumpArrRest, List.length_cons, List.length_append]
    omega

theorem needObj_le : ∀ kvs : List (String × Json), needObj kvs ≤ 2 * (dumpObjRest kvs).length + 2
  | [] => by simp [needObj, dumpObjRest]
  | (k, v) :: kvs => by
    have h1 := needV_le v
    have h2 := needObj_le kvs
    have h3 := encString_length k
    simp only [needObj, dumpObjRest, List.length_cons, List.length_append]
    omega

end

/-- The serialization is lossless: deserializing `json.dumps` output returns
the original value. -/
theorem Json.loads_dumps (v : Json) : Json.loads (Json.dumps v) = some v := by
  rw [Json.loads, Json.dumps]
  have h1 : (String.mk (dumpChars v)).data = dumpChars v := rfl
  rw [h1]
  have h2 : parseVal (2 * (dumpChars v).length + 2) (dumpChars v) = some (v, []) := by
    have h3 := parseVal_dump v (2 * (dumpChars v).length + 2) []
      (by have := needV_le v; omega) trivial
    simpa using h3
  rw [h2]

end AvaMcp

namespace AvaMcp

/-! ## Python `str()` / `repr()` on JSON-shaped values

`str(raw_result)` at lines 808/810 of `run_server.py` renders a parsed value
the way CPython prints it: dicts and lists via element `repr`, a top-level
string as itself. -/

mutual

/-- Python `repr` of a JSON-shaped value. -/
def pyRepr : Json → String
  | .null => "None"
  | .bool true => "True"
  | .bool false => "False"
  | .num n => toString n
  | .str s => "\x27" ++ s ++ "\x27"
  | .arr [] => "[]"
  | .arr (x :: xs) => "[" ++ pyRepr x ++ pyReprArrRest xs ++ "]"
  | .obj [] => "\x7b\x7d"
  | .obj ((k, v) :: kvs) =>
      "\x7b\x27" ++ k ++ "\x27: " ++ pyRepr v ++ pyReprObjRest kvs ++ "\x7d"

/-- Python `repr` of the remaining elements of a list. -/
def pyReprArrRest : List Json → String
  | [] => ""
  | x :: xs => ", " ++ pyRepr x ++ pyReprArrRest xs

/-- Python `repr` of the remaining members of a dict. -/
def pyReprObjRest : List (String × Json) → String
  | [] => ""
  | (k, v) :: kvs => ", \x27" ++ k ++ "\x27: " ++ pyRepr v ++ pyReprObjRest kvs

end

/-- Python `str()` of a JSON-shaped value. -/
def pyStr : Json → String
  | .str s => s
  | .null => pyRepr .null
  | .bool b => pyRepr (.bool b)
  | .num n => pyRepr (.num n)
  | .arr xs => pyRepr (.arr xs)
  | .obj kvs => pyRepr (.obj kvs)

/-! ## Python primitive operations used by the dispatcher's normalization -/

/-- Python `value[0]`: head of a list (raising `IndexError` when empty),
first character of a string, `KeyError`/`TypeError` on other shapes. -/
def pyIndexZero : Json → Except String Json
  | .arr [] => .error "IndexError: list index out of range"
  | .arr (x :: _) => .ok x
  | .str s =>
    match s.data with
    | [] => .error "IndexError: string index out of range"
    | c :: _ => .ok (.str (String.mk [c]))
  | .obj _ => .error "KeyError: 0"
  | .num _ => .error "TypeError: \x27int\x27 object is not subscriptable"
  | .bool _ => .error "TypeError: \x27bool\x27 object is not subscriptable"
  | .null => .error "TypeError: \x27NoneType\x27 object is not subscriptable"

/-- Python `value.get(key, default)`: defined on dicts only; any other shape
has no `get` attribute and raises. -/
def pyDictGet (v : Json) (key : String) (dflt : Json) : Except String Json :=
  match v with
  | .obj kvs => .ok ((fieldLookup kvs key).getD dflt)
  | _ => .error "AttributeError: object has no attribute \x27get\x27"

/-! ## The dispatcher: `AvaBotServicer.ExecuteTool` (lines 785-823)

An adapter is modelled by which call shapes it exposes (`hasattr` on
`execute` / `process`) and by the behaviour of each shape: a provider call
either returns a raw result or raises (carrying `str(e)`). -/

/-- One live adapter instance, as the dispatcher and loader observe it. -/
structure Adapter where
  /-- `getattr(adapter, 'description', ...)` source, when present. -/
  description : Option String
  /-- `hasattr(adapter, 'execute')`. -/
  hasExecute : Bool
  /-- `hasattr(adapter, 'process')`. -/
  hasProcess : Bool
  /-- Behaviour of `adapter.execute(args)`: result or raised error. -/
  executeFn : Json → Except String Json
  /-- Behaviour of `adapter.process(args)`: result or raised error. -/
  processFn : Json → Except String Json

/-- The wire request: `ToolRequest` with `tool_name` and serialized
`parameters`. -/
structure ToolRequest where
  tool_name : String
  parameters : String

/-- The wire envelope `ToolResponse`; proto3 defaults: `success=false`, empty
strings.  `ava_bot_pb2.ToolResponse()` is `\x7b\x7d` — all defaults. -/
structure ToolResponse where
  success : Bool := false
  text : String := ""
  raw_result : String := ""
  tool_name : String := ""
  timestamp : String := ""

/-- gRPC status codes the servicer can set on the context (plus the
client-error class named by the spec). -/
inductive StatusCode where
  | notFound
  | internal
  | invalidArgument
deriving DecidableEq

/-- What one `ExecuteTool` handler invocation reports through gRPC: the
returned envelope plus any status code / details set on the context. -/
structure Reply where
  resp : ToolResponse := ⟨false, "", "", "", ""⟩
  code : Option StatusCode := none
  details : Option String := none

/-- Outcome of the `ExecuteTool` handler body: a reply, or an exception that
propagates out of the handler unhandled. -/
inductive ExecResult where
  | reply (r : Reply)
  | raised (e : String)

/-- Lookup in the loaded-adapter mapping (`self.mcp_server.adapters`). -/
def lookupAdapter : List (String × Adapter) → String → Option Adapter
  | [], _ => none
  | (k, a) :: rest, key => if k = key then some a else lookupAdapter rest key

/-- Lines 807-810: compute `main_text` from the provider's raw result.
`raw_result.get("content", [\x7b\x7d])[0].get("text", "")` when `content` is
present (each step may raise), else `str(raw_result)`; non-dicts get
`str(raw_result)` directly. -/
def computeMainText (raw : Json) : Except String Json :=
  match raw with
  | .obj kvs =>
    if hasField kvs "content" then
      match fieldLookup kvs "content" with
      | some c => do
        let first ← pyIndexZero c
        pyDictGet first "text" (.str "")
      | none => .ok (.str (pyStr (.obj kvs)))
    else .ok (.str (pyStr (.obj kvs)))
  | .null => .ok (.str (pyStr .null))
  | .bool b => .ok (.str (pyStr (.bool b)))
  | .num n => .ok (.str (pyStr (.num n)))
  | .str s => .ok (.str (pyStr (.str s)))
  | .arr xs => .ok (.str (pyStr (.arr xs)))

/-- Assigning a value to the proto `text` string field: a non-string raises
`TypeError` (inside the handler's `try`). -/
def protoText : Json → Except String String
  | .str s => .ok s
  | _ => .error "TypeError: field text expects a string"

/-- Lines 795-823, the `try` block after the provider call returned or
raised: normalize the raw result into the success envelope, or let the
`except` clause set `Internal` and return the default envelope. -/
def finishDispatch (tool_name now : String) (rawRes : Except String Json) : ExecResult :=
  match rawRes with
  | .error e => .reply { code := some .internal, details := some e }
  | .ok raw =>
    match computeMainText raw with
    | .error e => .reply { code := some .internal, details := some e }
    | .ok mt =>
      match protoText mt with
      | .error e => .reply { code := some .internal, details := some e }
      | .ok t =>
        .reply { resp := { success := true, text := t, raw_result := Json.dumps raw,
                           tool_name := tool_name, timestamp := now } }

/-- Lines 790-805: adapter lookup and provider invocation.  The second
component records whether any provider `execute`/`process` call was made. -/
def executeToolCore (adapters : List (String × Adapter)) (tool_name : String)
    (args : Json) (now : String) : ExecResult × Bool :=
  match lookupAdapter adapters tool_name with
  | none =>
    (.reply { code := some .notFound,
              details := some ("Tool " ++ tool_name ++ " not found") }, false)
  | some adapter =>
    if adapter.hasExecute then
      (finishDispatch tool_name now (adapter.executeFn args), true)
    else if adapter.hasProcess then
      (finishDispatch tool_name now (adapter.processFn args), true)
    else
      (.reply { code := some .internal,
                details := some "Adapter has no execute/process method" }, false)

/-- `AvaBotServicer.ExecuteTool` (after the `request_count` increment):
`json.loads(request.parameters)` runs outside any `try`, so a
deserialization failure propagates out of the handler. -/
def executeTool (adapters : List (String × Adapter)) (req : ToolRequest)
    (now : String) : ExecResult × Bool :=
  match Json.loads req.parameters with
  | none => (.raised "json.decoder.JSONDecodeError", false)
  | some args => executeToolCore adapters req.tool_name args now

end AvaMcp

namespace AvaMcp

/-! ## The tool catalog: `CleanMCPServer.get_available_tools` (lines 154-587)

Each tool's `input_schema` is a Python dict literal selected by adapter name.
`SchemaVal` mirrors the shapes those literals use (strings, ints, decimal
literals kept as written, booleans, lists, nested dicts). -/

/-- A value inside a schema dict literal. -/
inductive SchemaVal where
  | str (s : String)
  | int (n : Int)
  | dec (lit : String)
  | bool (b : Bool)
  | list (xs : List SchemaVal)
  | dict (kvs : List (String × SchemaVal))

/-- One tool's input schema: its `properties` mapping and `required` list
(`"type": "object"` is common to all). -/
structure InputSchema where
  properties : List (String × SchemaVal) := []
  required : List String := []

/-- Lines 169-191. -/
def visionSchema : InputSchema :=
  { properties := [
      ("action", .dict [("type", .str "string"),
        ("enum", .list [.str "analyze_image", .str "describe_image", .str "ocr_text",
          .str "test_analyze"]),
        ("description", .str "Tipo de análisis visual a realizar")]),
      ("image_path", .dict [("type", .str "string"),
        ("description", .str "Ruta completa de la imagen a analizar")]),
      ("user_question", .dict [("type", .str "string"),
        ("description", .str "Pregunta específica sobre la imagen")]),
      ("detail_level", .dict [("type", .str "string"),
        ("enum", .list [.str "low", .str "high", .str "auto"]),
        ("description", .str "Nivel de detalle del análisis"),
        ("default", .str "high")])],
    required := ["action", "image_path"] }

/-- Lines 193-315. -/
def playwrightSchema : InputSchema :=
  { properties := [
      ("action", .dict [("type", .str "string"),
        ("enum", .list [.str "navigate", .str "go_back", .str "go_forward", .str "reload",
          .str "close_page",
          .str "extract_text", .str "extract_html", .str "extract_links", .str "extract_images",
          .str "extract_tables", .str "extract_forms", .str "extract_metadata",
          .str "smart_extract", .str "auto_search", .str "analyze_site",
          .str "extract_prices", .str "extract_product_info", .str "extract_reviews",
          .str "extract_ratings", .str "compare_prices",
          .str "click_element", .str "double_click", .str "right_click", .str "hover",
          .str "fill_input", .str "select_option", .str "check_checkbox", .str "upload_file",
          .str "scroll_to_element", .str "scroll_page", .str "infinite_scroll",
          .str "scroll_to_bottom",
          .str "wait_for_element", .str "wait_for_text", .str "wait_for_url",
          .str "wait_for_load_state",
          .str "take_screenshot", .str "take_element_screenshot", .str "create_pdf",
          .str "execute_js", .str "evaluate_expression", .str "inject_css",
          .str "intercept_requests", .str "block_resources", .str "get_network_activity",
          .str "login_form", .str "save_cookies", .str "load_cookies", .str "clear_cookies",
          .str "set_viewport", .str "emulate_device", .str "set_geolocation",
          .str "get_page_info", .str "download_file", .str "handle_popup"]),
        ("description", .str "Acción de automatización web a realizar")]),
      ("url", .dict [("type", .str "string"),
        ("description", .str "URL de destino para navegación y extracción")]),
      ("selector", .dict [("type", .str "string"),
        ("description", .str "Selector CSS del elemento objetivo")]),
      ("search_query", .dict [("type", .str "string"),
        ("description", .str "Query para búsqueda automática inteligente")]),
      ("max_results", .dict [("type", .str "integer"), ("default", .int 5),
        ("description", .str "Máximo número de resultados para extracción inteligente")]),
      ("text", .dict [("type", .str "string"),
        ("description", .str "Texto para buscar o llenar")]),
      ("javascript", .dict [("type", .str "string"),
        ("description", .str "Código JavaScript a ejecutar")]),
      ("screenshot_options", .dict [("type", .str "object"),
        ("properties", .dict [
          ("full_page", .dict [("type", .str "boolean"), ("default", .bool true)]),
          ("filename", .dict [("type", .str "string")]),
          ("quality", .dict [("type", .str "integer"), ("minimum", .int 0),
            ("maximum", .int 100)])])]),
      ("viewport", .dict [("type", .str "object"),
        ("properties", .dict [
          ("width", .dict [("type", .str "integer"), ("default", .int 1920)]),
          ("height", .dict [("type", .str "integer"), ("default", .int 1080)])])]),
      ("device", .dict [("type", .str "string"),
        ("enum", .list [.str "iPhone 12", .str "iPad", .str "Galaxy S21", .str "Pixel 5",
          .str "Desktop"]),
        ("description", .str "Dispositivo a emular")]),
      ("wait_options", .dict [("type", .str "object"),
        ("properties", .dict [
          ("timeout", .dict [("type", .str "integer"), ("default", .int 30000)]),
          ("state", .dict [("type", .str "string"),
            ("enum", .list [.str "visible", .str "hidden", .str "attached",
              .str "detached"])])])]),
      ("scroll_options", .dict [("type", .str "object"),
        ("properties", .dict [
          ("direction", .dict [("type", .str "string"),
            ("enum", .list [.str "up", .str "down", .str "left", .str "right"])]),
          ("amount", .dict [("type", .str "integer"), ("default", .int 500)]),
          ("smooth", .dict [("type", .str "boolean"), ("default", .bool true)])])]),
      ("price_selectors", .dict [("type", .str "array"),
        ("items", .dict [("type", .str "string")]),
        ("default", .list [.str ".price", .str ".precio", .str ".amount", .str ".cost",
          .str "[data-price]"]),
        ("description", .str "Selectores CSS para precios")]),
      ("max_items", .dict [("type", .str "integer"), ("default", .int 10),
        ("description", .str "Máximo número de elementos a extraer")])],
    required := ["action", "url"] }

/-- Lines 317-333. -/
def fileManagerSchema : InputSchema :=
  { properties := [
      ("action", .dict [("type", .str "string"),
        ("enum", .list [.str "list_files", .str "get_file_info", .str "read_file",
          .str "get_latest_image", .str "prepare_for_email", .str "copy_file",
          .str "delete_file"]),
        ("description", .str "Acción a realizar")]),
      ("directory", .dict [("type", .str "string"),
        ("enum", .list [.str "generated_images", .str "downloads", .str "temp",
          .str "uploads"]),
        ("description", .str "Directorio objetivo")]),
      ("filename", .dict [("type", .str "string"),
        ("description", .str "Nombre del archivo")]),
      ("pattern", .dict [("type", .str "string"),
        ("description", .str "Patrón para filtrar archivos")]),
      ("limit", .dict [("type", .str "integer"),
        ("description", .str "Límite de resultados"), ("default", .int 10)])],
    required := ["action"] }

/-- Lines 335-343. -/
def calendarSchema : InputSchema :=
  { properties := [
      ("summary", .dict [("type", .str "string"), ("description", .str "Event title")]),
      ("start_time", .dict [("type", .str "string"),
        ("description", .str "Start time in ISO format")]),
      ("duration_hours", .dict [("type", .str "number"),
        ("description", .str "Duration in hours")]),
      ("attendees", .dict [("type", .str "string"), ("description", .str "Attendee emails")]),
      ("description", .dict [("type", .str "string"),
        ("description", .str "Event description")])],
    required := ["summary", "start_time"] }

/-- Lines 345-350. -/
def searchSchema : InputSchema :=
  { properties := [
      ("query", .dict [("type", .str "string"), ("description", .str "Search query")]),
      ("num_results", .dict [("type", .str "integer"),
        ("description", .str "Number of results")])],
    required := ["query"] }

/-- Lines 352-360. -/
def gmailSchema : InputSchema :=
  { properties := [
      ("to", .dict [("type", .str "string"), ("description", .str "Recipient email")]),
      ("subject", .dict [("type", .str "string"), ("description", .str "Email subject")]),
      ("body", .dict [("type", .str "string"), ("description", .str "Email body")]),
      ("send_latest_image", .dict [("type", .str "boolean"),
        ("description", .str "Send latest generated image")]),
      ("attachment_data", .dict [("type", .str "object"),
        ("description", .str "Attachment data from file_manager")])],
    required := ["to", "subject", "body"] }

/-- Lines 362-370. -/
def meetSchema : InputSchema :=
  { properties := [
      ("summary", .dict [("type", .str "string"),
        ("description", .str "Título de la reunión")]),
      ("start_time", .dict [("type", .str "string"),
        ("description", .str "Fecha y hora en formato ISO (YYYY-MM-DDTHH:MM:SS)")]),
      ("duration_hours", .dict [("type", .str "number"),
        ("description", .str "Duración en horas"), ("default", .int 1)]),
      ("description", .dict [("type", .str "string"),
        ("description", .str "Descripción opcional de la reunión")]),
      ("attendees", .dict [("type", .str "string"),
        ("description", .str "Emails de asistentes separados por comas")])],
    required := ["summary"] }

/-- Lines 372-377. -/
def imageSchema : InputSchema :=
  { properties := [
      ("prompt", .dict [("type", .str "string"), ("description", .str "Image description")]),
      ("style", .dict [("type", .str "string"), ("description", .str "Image style")])],
    required := ["prompt"] }

/-- Lines 379-386. -/
def memorySchema : InputSchema :=
  { properties := [
      ("user_id", .dict [("type", .str "string"), ("description", .str "User identifier")]),
      ("action", .dict [("type", .str "string"),
        ("description", .str "Action: search, store, get_context")]),
      ("query", .dict [("type", .str "string"), ("description", .str "Search query")]),
      ("content", .dict [("type", .str "string"), ("description", .str "Content to store")])],
    required := ["user_id", "action"] }

/-- Lines 388-470. -/
def multimodalMemorySchema : InputSchema :=
  { properties := [
      ("action", .dict [("type", .str "string"),
        ("enum", .list [.str "store_text_memory", .str "store_image_memory",
          .str "search_semantic_memories", .str "get_recent_multimodal_context",
          .str "find_related_images", .str "get_user_stats",
          .str "create_semantic_link", .str "validate_system"]),
        ("description", .str "Acción de memoria multimodal a realizar")]),
      ("user_id", .dict [("type", .str "string"), ("description", .str "ID del usuario"),
        ("required", .bool true)]),
      ("content", .dict [("type", .str "string"),
        ("description", .str "Contenido de texto para almacenar")]),
      ("image_path", .dict [("type", .str "string"),
        ("description", .str "Ruta de la imagen")]),
      ("description", .dict [("type", .str "string"),
        ("description", .str "Descripción de la imagen")]),
      ("query", .dict [("type", .str "string"),
        ("description", .str "Query para búsqueda semántica")]),
      ("modalities", .dict [("type", .str "array"),
        ("items", .dict [("type", .str "string")]),
        ("description", .str "Modalidades: [\x27text\x27, \x27image\x27]"),
        ("default", .list [.str "text"])]),
      ("limit", .dict [("type", .str "integer"),
        ("description", .str "Límite de resultados"), ("default", .int 5)]),
      ("session_id", .dict [("type", .str "string"), ("description", .str "ID de sesión")]),
      ("days", .dict [("type", .str "integer"), ("description", .str "Días hacia atrás"),
        ("default", .int 7)]),
      ("text_query", .dict [("type", .str "string"),
        ("description", .str "Query para buscar imágenes relacionadas")]),
      ("memory_id_1", .dict [("type", .str "integer"),
        ("description", .str "ID de primera memoria para enlace")]),
      ("memory_id_2", .dict [("type", .str "integer"),
        ("description", .str "ID de segunda memoria para enlace")]),
      ("memory_type_1", .dict [("type", .str "string"),
        ("description", .str "Tipo de primera memoria")]),
      ("memory_type_2", .dict [("type", .str "string"),
        ("description", .str "Tipo de segunda memoria")]),
      ("similarity_score", .dict [("type", .str "number"),
        ("description", .str "Puntuación de similitud")]),
      ("link_type", .dict [("type", .str "string"),
        ("description", .str "Tipo de enlace semántico")])],
    required := ["action", "user_id"] }

/-- Lines 472-523. -/
def openaiTtsSchema : InputSchema :=
  { properties := [
      ("action", .dict [("type", .str "string"),
        ("enum", .list [.str "text_to_speech", .str "get_voices"]),
        ("description", .str "Acción a realizar")]),
      ("text", .dict [("type", .str "string"),
        ("description", .str "Texto para convertir a voz")]),
      ("voice", .dict [("type", .str "string"),
        ("enum", .list [.str "alloy", .str "ash", .str "ballad", .str "coral", .str "echo",
          .str "fable", .str "nova", .str "onyx", .str "sage", .str "shimmer"]),
        ("default", .str "coral"),
        ("description", .str "Voz de OpenAI a usar")]),
      ("model", .dict [("type", .str "string"), ("default", .str "gpt-4o-mini-tts"),
        ("enum", .list [.str "gpt-4o-mini-tts"]),
        ("description", .str "Modelo TTS de OpenAI")]),
      ("speed", .dict [("type", .str "number"), ("minimum", .dec "0.25"),
        ("maximum", .dec "4.0"), ("default", .dec "1.0"),
        ("description", .str "Velocidad de reproducción")]),
      ("preset_accent", .dict [("type", .str "string"),
        ("enum", .list [.str "colombiano", .str "mexicano", .str "argentino", .str "español",
          .str "neutral", .str "custom"]),
        ("default", .str "neutral"),
        ("description", .str "Acento preconfigurado")]),
      ("instructions", .dict [("type", .str "string"),
        ("description", .str "Instrucciones específicas para el habla")]),
      ("return_audio", .dict [("type", .str "boolean"), ("default", .bool false),
        ("description", .str "Retornar audio en base64")]),
      ("play_audio", .dict [("type", .str "boolean"), ("default", .bool true),
        ("description", .str "Reproducir audio inmediatamente")])],
    required := ["action", "text"] }

/-- Lines 525-579. -/
def groqSpeechSchema : InputSchema :=
  { properties := [
      ("action", .dict [("type", .str "string"),
        ("enum", .list [.str "speech_to_text", .str "text_to_speech", .str "get_voices",
          .str "transcribe_file", .str "transcribe_url"]),
        ("description", .str "Acción a realizar")]),
      ("audio_data", .dict [("type", .str "string"),
        ("description", .str "Audio en base64 para STT")]),
      ("audio_url", .dict [("type", .str "string"),
        ("description", .str "URL del audio para transcribir")]),
      ("text", .dict [("type", .str "string"),
        ("description", .str "Texto para convertir a voz")]),
      ("language", .dict [("type", .str "string"), ("default", .str "es"),
        ("description", .str "Idioma (es, en, etc.)")]),
      ("engine", .dict [("type", .str "string"),
        ("enum", .list [.str "gtts", .str "pyttsx3"]),
        ("default", .str "gtts"),
        ("description", .str "Motor TTS a usar")]),
      ("file_path", .dict [("type", .str "string"),
        ("description", .str "Ruta del archivo de audio para transcribir")]),
      ("model", .dict [("type", .str "string"), ("default", .str "whisper-large-v3-turbo"),
        ("description", .str "Modelo Whisper de Groq")]),
      ("prompt", .dict [("type", .str "string"),
        ("description", .str "Prompt opcional para guiar la transcripción")]),
      ("temperature", .dict [("type", .str "number"), ("default", .int 0),
        ("description", .str "Temperatura para la transcripción")]),
      ("return_audio", .dict [("type", .str "boolean"), ("default", .bool false),
        ("description", .str "Retornar audio en base64")])],
    required := ["action"] }

/-- The basic schema of lines 162-166, kept by every name without a
dedicated branch (`image_display` among the loaded names). -/
def emptySchema : InputSchema := { properties := [], required := [] }

/-- The name-keyed schema selection of lines 168-579. -/
def schemaFor (name : String) : InputSchema :=
  if name = "vision" then visionSchema
  else if name = "playwright" then playwrightSchema
  else if name = "file_manager" then fileManagerSchema
  else if name = "calendar" then calendarSchema
  else if name = "search" then searchSchema
  else if name = "gmail" then gmailSchema
  else if name = "meet" then meetSchema
  else if name = "image" then imageSchema
  else if name = "memory" then memorySchema
  else if name = "multimodal_memory" then multimodalMemorySchema
  else if name = "openai_tts" then openaiTtsSchema
  else if name = "groq_speech" then groqSpeechSchema
  else emptySchema

end AvaMcp

namespace AvaMcp

mutual

/-- `json.dumps` of a schema value (line 779 serializes each tool's schema). -/
def schemaValChars : SchemaVal → List Char
  | .str s => encString s
  | .int n => intChars n
  | .dec lit => lit.data
  | .bool true => trueChars
  | .bool false => falseChars
  | .list [] => ['[', ']']
  | .list (x :: xs) => '[' :: (schemaValChars x ++ schemaListRest xs ++ [']'])
  | .dict [] => ['\x7b', '\x7d']
  | .dict ((k, v) :: kvs) =>
      '\x7b' :: (encString k ++ ':' :: ' ' :: schemaValChars v ++ schemaDictRest kvs ++ ['\x7d'])

/-- Remaining list elements, each preceded by `", "`. -/
def schemaListRest : List SchemaVal → List Char
  | [] => []
  | x :: xs => ',' :: ' ' :: (schemaValChars x ++ schemaListRest xs)

/-- Remaining dict members, each preceded by `", "`. -/
def schemaDictRest : List (String × SchemaVal) → List Char
  | [] => []
  | (k, v) :: kvs => ',' :: ' ' :: (encString k ++ ':' :: ' ' :: schemaValChars v ++ schemaDictRest kvs)

end

/-- The full `input_schema` dict of lines 162-166 with the per-name
`properties`/`required` substituted. -/
def inputSchemaVal (s : InputSchema) : SchemaVal :=
  .dict [("type", .str "object"), ("properties", .dict s.properties),
         ("required", .list (s.required.map .str))]

/-- One entry of `get_available_tools`' result. -/
structure ToolDesc where
  name : String
  description : String
  inputSchema : InputSchema

/-- `CleanMCPServer.get_available_tools`: one descriptor per loaded adapter,
in mapping order; description falls back to the generated default. -/
def getAvailableTools (adapters : List (String × Adapter)) : List ToolDesc :=
  adapters.map fun p =>
    { name := p.1,
      description := p.2.description.getD ("Ava Bot " ++ p.1 ++ " tool"),
      inputSchema := schemaFor p.1 }

/-- The `ToolsList` proto message. -/
structure ToolsList where
  tools : List (String × String) := []
  schemas : List (String × String) := []
  total_count : Nat := 0
  timestamp : String := ""

/-- `AvaBotServicer.ListTools` (lines 772-783), after the counter bump. -/
def listToolsImpl (adapters : List (String × Adapter)) (now : String) : ToolsList :=
  let ts := getAvailableTools adapters
  { tools := ts.map fun t => (t.name, t.description),
    schemas := ts.map fun t => (t.name, String.mk (schemaValChars (inputSchemaVal t.inputSchema))),
    total_count := ts.length,
    timestamp := now }

/-! ## The silent adapter loader: `SilentAdapterLoader.load_all_adapters`
(lines 64-137)

The loader's interaction with the module system is modelled by an
environment mapping each declaration to the outcome of its import, its
class-attribute check, and its constructor call.  The stream discipline is
made observable by threading the `sys.stdout`/`sys.stderr` variables through
every assignment and recording, for each import, construction and check, the
stream that was live when it ran. -/

/-- One entry of `adapter_definitions`. -/
structure AdapterDecl where
  name : String
  module_path : String
  class_name : String
deriving DecidableEq

/-- The 13 declarations of lines 48-62. -/
def adapterDefinitions : List AdapterDecl :=
  [⟨"memory", "tools.adapters.memory_adapter", "MemoryAdapter"⟩,
   ⟨"calendar", "tools.adapters.calendar_adapter", "CalendarAdapter"⟩,
   ⟨"gmail", "tools.adapters.gmail_adapter", "GmailAdapter"⟩,
   ⟨"search", "tools.adapters.search_adapter", "SearchAdapter"⟩,
   ⟨"meet", "tools.adapters.meet_adapter", "MeetAdapter"⟩,
   ⟨"image", "tools.adapters.image_adapter", "ImageAdapter"⟩,
   ⟨"image_display", "tools.adapters.image_display_adapter", "ImageDisplayAdapter"⟩,
   ⟨"file_manager", "tools.adapters.file_adapter", "FileManagerAdapter"⟩,
   ⟨"vision", "tools.adapters.vision_adapter", "VisionAdapter"⟩,
   ⟨"playwright", "tools.adapters.playwright_adapter", "PlaywrightAdapter"⟩,
   ⟨"multimodal_memory", "tools.adapters.multimodal_memory_adapter", "MultimodalMemoryAdapter"⟩,
   ⟨"openai_tts", "tools.adapters.openai_tts_adapter", "OpenAITTSAdapter"⟩,
   ⟨"groq_speech", "tools.adapters.groq_speech_adapter", "GroqSpeechAdapter"⟩]

/-- What the module system does for one declaration: the import may raise,
the class attribute may be missing, the constructor may raise, or a live
instance is produced. -/
inductive DeclOutcome where
  | importError (msg : String)
  | classMissing
  | initError (msg : String)
  | loaded (a : Adapter)

/-- The environment: per-declaration outcome (a function of the declared
module path, class name and adapter name). -/
def LoadEnv := AdapterDecl → DeclOutcome

/-- A stream value `sys.stdout` / `sys.stderr` can hold here: the originals
captured at lines 69-70, or the `NullStream` of lines 74-79. -/
inductive Chan where
  | origStdout
  | origStderr
  | nullStream
deriving DecidableEq

/-- The two redirected interpreter streams. -/
structure Chans where
  stdout : Chan
  stderr : Chan
deriving DecidableEq

/-- Which `safe_log` call a log event records. -/
inductive LogSite where
  /-- Line 83: start of one declaration's iteration. -/
  | loopStart
  /-- Line 92: the `except ImportError` suite. -/
  | importFail
  /-- Line 99: class attribute missing. -/
  | classFail
  /-- Line 109: the constructor's `except Exception` suite. -/
  | initFail
  /-- Lines 124/126: outcome of the required-shape check. -/
  | shapeResult
  /-- Line 66: before the loop. -/
  | loaderStart
  /-- Line 136: after the outer `finally`. -/
  | loaderDone
deriving DecidableEq

/-- Observable moments of the loading loop, each tagged with the stream
`sys.stdout` held when it happened. -/
inductive LoadEv where
  /-- `safe_log` writes (always to stderr). -/
  | logEv (site : LogSite) (stdoutAt : Chan)
  /-- `__import__(module_path, ...)` (line 90). -/
  | importEv (module_path : String) (stdoutAt : Chan)
  /-- `adapter_class()` (line 107). -/
  | constructEv (name : String) (stdoutAt : Chan)
  /-- The `hasattr(module, class_name)` check (line 98). -/
  | classCheckEv (class_name : String) (stdoutAt : Chan)
  /-- The required-methods check (lines 114-126). -/
  | shapeCheckEv (name : String) (stdoutAt : Chan)
deriving DecidableEq

/-- The per-declaration required-shape check of lines 114-122:
`['execute']` for `file_manager`, `['process', 'execute']` otherwise;
the adapter passes when at least one required method is present. -/
def shapeOk (name : String) (a : Adapter) : Bool :=
  if name = "file_manager" then a.hasExecute else a.hasProcess || a.hasExecute

/-- Python-dict insertion for `self.loaded_adapters[name] = instance`:
update in place when present, else append. -/
def dictInsert : List (String × Adapter) → String → Adapter → List (String × Adapter)
  | [], key, a => [(key, a)]
  | (k, v) :: rest, key, a =>
    if k = key then (k, a) :: rest else (k, v) :: dictInsert rest key a

/-- One iteration of the loading loop (lines 81-129) starting from stream
state `ch`: emits its events, the stream state it leaves behind, and the
instance to insert (when the declaration survived every check). -/
def loadOneTraced (env : LoadEnv) (d : AdapterDecl) (ch : Chans) :
    Chans × List LoadEv × Option Adapter :=
  -- safe_log "Cargando ..." (line 83), stdout untouched
  let e0 := LoadEv.logEv .loopStart ch.stdout
  -- sys.stdout = null_stream (line 86)
  let ch1 : Chans := { ch with stdout := .nullStream }
  -- __import__ under the redirect; `finally` restores stdout (lines 89-95)
  let eImp := LoadEv.importEv d.module_path ch1.stdout
  let ch2 : Chans := { ch1 with stdout := .origStdout }
  -- hasattr(module, class_name) runs with stdout restored (line 98)
  let eCls := LoadEv.classCheckEv d.class_name ch2.stdout
  match env d with
  | .importError _ =>
    -- the `except ImportError` suite (line 92) runs BEFORE the `finally`
    -- of lines 94-95, so its safe_log sees the still-null stream
    (ch2, [e0, eImp, .logEv .importFail ch1.stdout], none)
  | .classMissing => (ch2, [e0, eImp, eCls, .logEv .classFail ch2.stdout], none)
  | .initError _ =>
    -- sys.stdout = null_stream; adapter_class() raises; the `except` suite
    -- (line 109) logs under the null stream, then the `finally` restores
    let ch3 : Chans := { ch2 with stdout := .nullStream }
    let eIni := LoadEv.constructEv d.name ch3.stdout
    let ch4 : Chans := { ch3 with stdout := .origStdout }
    (ch4, [e0, eImp, eCls, eIni, .logEv .initFail ch3.stdout], none)
  | .loaded a =>
    let ch3 : Chans := { ch2 with stdout := .nullStream }
    let eIni := LoadEv.constructEv d.name ch3.stdout
    let ch4 : Chans := { ch3 with stdout := .origStdout }
    -- required-methods check with stdout restored (lines 114-126)
    let eShape := LoadEv.shapeCheckEv d.name ch4.stdout
    if shapeOk d.name a then
      (ch4, [e0, eImp, eCls, eIni, eShape, .logEv .shapeResult ch4.stdout], some a)
    else
      (ch4, [e0, eImp, eCls, eIni, eShape, .logEv .shapeResult ch4.stdout], none)

/-- The loading loop over a declaration list: threads streams and the
accumulating `loaded_adapters` dict, collecting all events. -/
def loadLoop (env : LoadEnv) : List AdapterDecl → Chans → List (String × Adapter) →
    Chans × List LoadEv × List (String × Adapter)
  | [], ch, acc => (ch, [], acc)
  | d :: ds, ch, acc =>
    let step := loadOneTraced env d ch
    let acc2 := match step.2.2 with
      | some a => dictInsert acc d.name a
      | none => acc
    let restStep := loadLoop env ds step.1 acc2
    (restStep.1, step.2.1 ++ restStep.2.1, restStep.2.2)

/-- `load_all_adapters` with the stream discipline made observable: starts
from the captured originals, runs the loop, and the outer `finally`
(lines 131-134) restores both streams. -/
def loadAllTraced (env : LoadEnv) (decls : List AdapterDecl) :
    Chans × List LoadEv × List (String × Adapter) :=
  let start : Chans := { stdout := .origStdout, stderr := .origStderr }
  let run := loadLoop env decls start []
  ({ stdout := .origStdout, stderr := .origStderr },
   LoadEv.logEv .loaderStart start.stdout :: run.2.1
     ++ [LoadEv.logEv .loaderDone Chan.origStdout], run.2.2)

/-- `load_all_adapters`' return value: the loaded-adapter mapping. -/
def loadAllAdapters (env : LoadEnv) (decls : List AdapterDecl) : List (String × Adapter) :=
  (loadAllTraced env decls).2.2

/-! ## The servicer's request counter (lines 757-787) -/

/-- The mutable servicer state: `self.request_count`. -/
structure SrvState where
  request_count : Nat

/-- `AvaBotServicer.__init__` (lines 757-760). -/
def initSrvState : SrvState := { request_count := 0 }

/-- The `HealthResponse` message; the float `uptime_seconds` is carried as
an opaque token (its value never matters to any claim). -/
structure HealthResponse where
  status : String
  timestamp : String
  uptime_token : String
  total_tools : Nat
  request_count : Nat

/-- `AvaBotServicer.Health` (lines 762-770): pure read, no counter change. -/
def healthRpc (adapters : List (String × Adapter)) (s : SrvState)
    (now uptime : String) : SrvState × HealthResponse :=
  (s, { status := "ok", timestamp := now, uptime_token := uptime,
        total_tools := adapters.length, request_count := s.request_count })

/-- `AvaBotServicer.ListTools` (lines 772-783): counter bump, then the
catalog. -/
def listToolsRpc (adapters : List (String × Adapter)) (s : SrvState)
    (now : String) : SrvState × ToolsList :=
  ({ request_count := s.request_count + 1 }, listToolsImpl adapters now)

/-- `AvaBotServicer.ExecuteTool` (lines 785-823): the counter bump happens
first, before `json.loads` and before any lookup, so it survives every
failure path. -/
def executeToolRpc (adapters : List (String × Adapter)) (s : SrvState)
    (req : ToolRequest) (now : String) : SrvState × (ExecResult × Bool) :=
  ({ request_count := s.request_count + 1 }, executeTool adapters req now)

/-- One inbound RPC, for reasoning about call sequences. -/
inductive RpcCall where
  | health (now uptime : String)
  | listTools (now : String)
  | execTool (req : ToolRequest) (now : String)

/-- The servicer state after one call. -/
def stepCall (adapters : List (String × Adapter)) (s : SrvState) : RpcCall → SrvState
  | .health now uptime => (healthRpc adapters s now uptime).1
  | .listTools now => (listToolsRpc adapters s now).1
  | .execTool req now => (executeToolRpc adapters s req now).1

/-- The servicer state after a sequence of calls. -/
def runCalls (adapters : List (String × Adapter)) (s : SrvState) : List RpcCall → SrvState
  | [] => s
  | c :: cs => runCalls adapters (stepCall adapters s c) cs

/-- How many of the calls are counter-bumping (non-`Health`) ones. -/
def countedCalls : List RpcCall → Nat
  | [] => 0
  | .health _ _ :: cs => countedCalls cs
  | .listTools _ :: cs => 1 + countedCalls cs
  | .execTool _ _ :: cs => 1 + countedCalls cs

end AvaMcp

namespace AvaMcp

/-! ## Loader characterization lemmas -/

/-- What one declaration contributes to the loaded mapping: its instance,
when import, class lookup, construction and the shape check all succeed. -/
def loadedOf (env : LoadEnv) (d : AdapterDecl) : Option Adapter :=
  match env d with
  | .loaded a => if shapeOk d.name a then some a else none
  | _ => none

/-- One fold step of the loading loop on the accumulated dict. -/
def insertStep (env : LoadEnv) (m : List (String × Adapter)) (d : AdapterDecl) :
    List (String × Adapter) :=
  match loadedOf env d with
  | some a => dictInsert m d.name a
  | none => m

theorem loadOneTraced_inserted (env : LoadEnv) (d : AdapterDecl) (ch : Chans) :
    (loadOneTraced env d ch).2.2 = loadedOf env d := by
  unfold loadOneTraced loadedOf
  cases env d with
  | importError m => rfl
  | classMissing => rfl
  | initError m => rfl
  | loaded a => by_cases h : shapeOk d.name a <;> simp [h]

theorem loadOneTraced_chans (env : LoadEnv) (d : AdapterDecl) (ch : Chans) :
    (loadOneTraced env d ch).1 = { stdout := Chan.origStdout, stderr := ch.stderr } := by
  unfold loadOneTraced
  cases env d with
  | importError m => rfl
  | classMissing => rfl
  | initError m => rfl
  | loaded a => by_cases h : shapeOk d.name a <;> simp [h]

/-- The discipline the code actually follows: imports and constructions see
the null stream, and so do the import/construction *failure* logs — their
`except` suites run before the restoring `finally` — while the class check,
the shape check and every other log line see the original stdout. -/
def evOk : LoadEv → Prop
  | .importEv _ c => c = Chan.nullStream
  | .constructEv _ c => c = Chan.nullStream
  | .logEv .importFail c => c = Chan.nullStream
  | .logEv .initFail c => c = Chan.nullStream
  | .logEv _ c => c = Chan.origStdout
  | .classCheckEv _ c => c = Chan.origStdout
  | .shapeCheckEv _ c => c = Chan.origStdout

/-- The discipline the original claim asserts: the redirection covers
*only* the import and constructor calls themselves, so every log line —
failure logging included — would see the original stdout. -/
def evOkClaimed : LoadEv → Prop
  | .importEv _ c => c = Chan.nullStream
  | .constructEv _ c => c = Chan.nullStream
  | .logEv _ c => c = Chan.origStdout
  | .classCheckEv _ c => c = Chan.origStdout
  | .shapeCheckEv _ c => c = Chan.origStdout

theorem loadOneTraced_events (env : LoadEnv) (d : AdapterDecl) (ch : Chans)
    (h : ch.stdout = Chan.origStdout) :
    ∀ ev ∈ (loadOneTraced env d ch).2.1, evOk ev := by
  unfold loadOneTraced
  cases env d with
  | importError m =>
    intro ev hev
    simp only [List.mem_cons, List.not_mem_nil, or_false] at hev
    rcases hev with rfl | rfl | rfl <;> simp [evOk, h]
  | classMissing =>
    intro ev hev
    simp only [List.mem_cons, List.not_mem_nil, or_false] at hev
    rcases hev with rfl | rfl | rfl | rfl <;> simp [evOk, h]
  | initError m =>
    intro ev hev
    simp only [List.mem_cons, List.not_mem_nil, or_false] at hev
    rcases hev with rfl | rfl | rfl | rfl | rfl <;> simp [evOk, h]
  | loaded a =>
    by_cases hso : shapeOk d.name a <;>
      (simp only [hso, if_true, if_false, Bool.false_eq_true]
       intro ev hev
       simp only [List.mem_cons, List.not_mem_nil, or_false] at hev
       rcases hev with rfl | rfl | rfl | rfl | rfl | rfl <;> simp [evOk, h])

/-- The module path recorded by an import event. -/
def importPathOf : LoadEv → Option String
  | .importEv p _ => some p
  | _ => none

theorem loadOneTraced_imports (env : LoadEnv) (d : AdapterDecl) (ch : Chans) :
    (loadOneTraced env d ch).2.1.filterMap importPathOf = [d.module_path] := by
  unfold loadOneTraced
  cases env d with
  | importError m => simp [importPathOf]
  | classMissing => simp [importPathOf]
  | initError m => simp [importPathOf]
  | loaded a => by_cases h : shapeOk d.name a <;> simp [h, importPathOf]

theorem loadLoop_events (env : LoadEnv) : ∀ (decls : List AdapterDecl) (ch : Chans)
    (acc : List (String × Adapter)), ch.stdout = Chan.origStdout →
    ∀ ev ∈ (loadLoop env decls ch acc).2.1, evOk ev
  | [], ch, acc, _ => by simp [loadLoop]
  | d :: ds, ch, acc, h => by
    simp only [loadLoop, List.mem_append]
    intro ev hev
    rcases hev with hev | hev
    · exact loadOneTraced_events env d ch h ev hev
    · exact loadLoop_events env ds _ _ (by rw [loadOneTraced_chans]) ev hev

theorem loadLoop_imports (env : LoadEnv) : ∀ (decls : List AdapterDecl) (ch : Chans)
    (acc : List (String × Adapter)),
    (loadLoop env decls ch acc).2.1.filterMap importPathOf
      = decls.map AdapterDecl.module_path
  | [], ch, acc => by simp [loadLoop]
  | d :: ds, ch, acc => by
    simp only [loadLoop, List.filterMap_append, List.map_cons]
    rw [loadOneTraced_imports, loadLoop_imports env ds _ _]
    rfl

theorem loadLoop_result (env : LoadEnv) : ∀ (decls : List AdapterDecl) (ch : Chans)
    (acc : List (String × Adapter)),
    (loadLoop env decls ch acc).2.2 = decls.foldl (insertStep env) acc
  | [], _, _ => rfl
  | d :: ds, ch, acc => by
    simp only [loadLoop, List.foldl_cons]
    rw [loadOneTraced_inserted]
    exact loadLoop_result env ds _ _

theorem dictInsert_append (m : List (String × Adapter)) (key : String) (a : Adapter)
    (h : ∀ p ∈ m, p.1 ≠ key) : dictInsert m key a = m ++ [(key, a)] := by
  induction m with
  | nil => rfl
  | cons q rest ih =>
    obtain ⟨k, v⟩ := q
    have hk : k ≠ key := h (k, v) (by simp)
    simp only [dictInsert, if_neg hk, List.cons_append]
    rw [ih (fun p hp => h p (by simp [hp]))]

theorem loadFold_eq (env : LoadEnv) : ∀ (decls : List AdapterDecl)
    (acc : List (String × Adapter)),
    (∀ d ∈ decls, ∀ p ∈ acc, p.1 ≠ d.name) → (decls.map AdapterDecl.name).Nodup →
    decls.foldl (insertStep env) acc
      = acc ++ decls.filterMap (fun d => (loadedOf env d).map (fun a => (d.name, a)))
  | [], acc, _, _ => by simp
  | d :: ds, acc, hdisj, hnodup => by
    simp only [List.map_cons, List.nodup_cons] at hnodup
    cases hl : loadedOf env d with
    | none =>
      have hstep : insertStep env acc d = acc := by unfold insertStep; rw [hl]
      simp only [List.foldl_cons, hstep, List.filterMap_cons, hl]
      exact loadFold_eq env ds acc (fun d2 hd2 => hdisj d2 (by simp [hd2])) hnodup.2
    | some a =>
      have hstep : insertStep env acc d = acc ++ [(d.name, a)] := by
        unfold insertStep
        rw [hl]
        exact dictInsert_append acc d.name a (fun p hp => hdisj d (by simp) p hp)
      simp only [List.foldl_cons, hstep, List.filterMap_cons, hl, Option.map_some']
      rw [loadFold_eq env ds (acc ++ [(d.name, a)]) ?hdisj2 hnodup.2]
      · simp
      case hdisj2 =>
        intro d2 hd2 p hp
        rcases List.mem_append.mp hp with hp | hp
        · exact hdisj d2 (by simp [hd2]) p hp
        · simp only [List.mem_singleton] at hp
          subst hp
          intro hcontra
          refine hnodup.1 ?_
          rw [show d.name = d2.name from hcontra]
          exact List.mem_map_of_mem AdapterDecl.name hd2

/-- Full characterization of the loaded mapping when declared names are
distinct (they are, in the compiled-in list): one entry per declaration
whose load fully succeeded, keyed by declared name, in declaration order. -/
theorem loadAllAdapters_eq (env : LoadEnv) (decls : List AdapterDecl)
    (hnodup : (decls.map AdapterDecl.name).Nodup) :
    loadAllAdapters env decls
      = decls.filterMap (fun d => (loadedOf env d).map (fun a => (d.name, a))) := by
  unfold loadAllAdapters loadAllTraced
  simp only
  rw [loadLoop_result]
  simpa using loadFold_eq env decls [] (by simp) hnodup

theorem mem_dictInsert (p : String × Adapter) (m : List (String × Adapter))
    (key : String) (a : Adapter) :
    p ∈ dictInsert m key a → p ∈ m ∨ p = (key, a) := by
  induction m with
  | nil => simp [dictInsert]
  | cons q rest ih =>
    obtain ⟨k, v⟩ := q
    by_cases hk : k = key
    · subst hk
      intro hp
      simp only [dictInsert, if_pos rfl] at hp
      rcases List.mem_cons.mp hp with hp | hp
      · exact Or.inr hp
      · exact Or.inl (List.mem_cons_of_mem _ hp)
    · intro hp
      simp only [dictInsert, if_neg hk] at hp
      rcases List.mem_cons.mp hp with hp | hp
      · exact Or.inl (by rw [hp]; exact List.mem_cons_self _ _)
      · rcases ih hp with h2 | h2
        · exact Or.inl (List.mem_cons_of_mem _ h2)
        · exact Or.inr h2

theorem mem_loadFold (env : LoadEnv) : ∀ (decls : List AdapterDecl)
    (acc : List (String × Adapter)) (p : String × Adapter),
    p ∈ decls.foldl (insertStep env) acc →
    p ∈ acc ∨ ∃ d ∈ decls, loadedOf env d = some p.2 ∧ p.1 = d.name
  | [], acc, p => by simp
  | d :: ds, acc, p => by
    simp only [List.foldl_cons]
    intro hp
    rcases mem_loadFold env ds (insertStep env acc d) p hp with hp2 | hp2
    · unfold insertStep at hp2
      cases hl : loadedOf env d with
      | none => rw [hl] at hp2; exact Or.inl hp2
      | some a =>
        rw [hl] at hp2
        rcases mem_dictInsert p acc d.name a hp2 with hp3 | hp3
        · exact Or.inl hp3
        · subst hp3
          exact Or.inr ⟨d, by simp, by simp [hl]⟩
    · obtain ⟨d2, hd2, h⟩ := hp2
      exact Or.inr ⟨d2, by simp [hd2], h⟩

end AvaMcp

namespace AvaMcp

/-! ## Demo instances used by witnesses -/

/-- An adapter exposing `execute` only, always succeeding. -/
def demoAdapter : Adapter :=
  { description := none, hasExecute := true, hasProcess := false,
    executeFn := fun _ => .ok .null, processFn := fun _ => .ok .null }

/-- Every declaration loads `demoAdapter`. -/
def allLoadedEnv : LoadEnv := fun _ => .loaded demoAdapter

/-- `gmail`'s constructor raises; every other declaration loads. -/
def gmailFailEnv : LoadEnv := fun d =>
  if d.name = "gmail" then .initError "boom" else .loaded demoAdapter

/-- Only `memory` loads; every other import fails. -/
def memoryOnlyEnv : LoadEnv := fun d =>
  if d.name = "memory" then .loaded demoAdapter else .importError "missing"

/-- C8 amended: during `load_all_adapters` the primary output channel is
redirected to the null sink for the duration of each module import and each
constructor call *and* — since an `except` suite runs before its `finally` —
while an import or construction failure is being logged; it is restored
unconditionally, on success and on exception, before the class-existence
check, before the required-shape check, before every other log line and
before the next declaration is attempted; and after the loader returns,
`sys.stdout` and `sys.stderr` hold their original values. -/
theorem loader_stream_discipline (env : LoadEnv) (decls : List AdapterDecl) :
    (loadAllTraced env decls).1
        = { stdout := Chan.origStdout, stderr := Chan.origStderr } ∧
    ∀ ev ∈ (loadAllTraced env decls).2.1, evOk ev := by
  constructor
  · rfl
  · unfold loadAllTraced
    simp only
    intro ev hev
    rcases List.mem_cons.mp hev with rfl | hev
    · simp [evOk]
    · rcases List.mem_append.mp hev with hev | hev
      · exact loadLoop_events env decls _ [] rfl ev hev
      · simp only [List.mem_singleton] at hev
        subst hev
        simp [evOk]

/-- C8 counterexample: with the compiled-in declarations and every import
but `memory`'s failing, the `except ImportError` log of line 92 runs while
`sys.stdout` is still the null sink — a moment that is neither the import
call nor a constructor call — refuting the claim that the redirection
covers only those calls (with the checks and logs on the original stream). -/
theorem loader_stream_discipline_cex :
    LoadEv.logEv LogSite.importFail Chan.nullStream
        ∈ (loadAllTraced memoryOnlyEnv adapterDefinitions).2.1 ∧
    ¬ evOkClaimed (LoadEv.logEv LogSite.importFail Chan.nullStream) := by
  refine ⟨by decide, ?_⟩
  intro hclaim
  simp only [evOkClaimed] at hclaim
  exact absurd hclaim (by decide)

/-- Witness for C8 at the compiled-in declaration list: the first import
event really occurs, and under the null stream. -/
theorem loader_stream_discipline_witness :
    evOk (LoadEv.importEv "tools.adapters.memory_adapter" Chan.nullStream) :=
  (loader_stream_discipline allLoadedEnv adapterDefinitions).2
    (LoadEv.importEv "tools.adapters.memory_adapter" Chan.nullStream) (by decide)

/-- C5: a declaration whose import or construction raises is skipped —
absent from the result and imported exactly once (no retry) — while
`load_all_adapters` still returns, containing every other adapter whose
construction and required-shape check succeeded, keyed by declared name in
declaration order. -/
theorem load_all_isolates_failures (env : LoadEnv) (decls : List AdapterDecl)
    (hnodup : (decls.map AdapterDecl.name).Nodup)
    (d : AdapterDecl) (hd : d ∈ decls) (m : String)
    (hfail : env d = .importError m ∨ env d = .initError m) :
    (∀ a : Adapter, (d.name, a) ∉ loadAllAdapters env decls) ∧
    (∀ d2 ∈ decls, ∀ a : Adapter, env d2 = .loaded a → shapeOk d2.name a = true →
        (d2.name, a) ∈ loadAllAdapters env decls) ∧
    ((loadAllAdapters env decls).map Prod.fst
        = (decls.filter (fun d2 => (loadedOf env d2).isSome)).map AdapterDecl.name) ∧
    ((loadAllTraced env decls).2.1.filterMap importPathOf
        = decls.map AdapterDecl.module_path) := by
  have hchar := loadAllAdapters_eq env decls hnodup
  refine ⟨?_, ?_, ?_, ?_⟩
  · intro a hmem
    rw [hchar] at hmem
    obtain ⟨d2, hd2, hmap⟩ := List.mem_filterMap.mp hmem
    cases hl : loadedOf env d2 with
    | none => rw [hl] at hmap; simp at hmap
    | some a2 =>
      rw [hl] at hmap
      simp only [Option.map_some', Option.some.injEq, Prod.mk.injEq] at hmap
      obtain ⟨hname, rfl⟩ := hmap
      have hdd : d2 = d := List.inj_on_of_nodup_map hnodup hd2 hd hname
      subst hdd
      rcases hfail with hf | hf <;>
        (unfold loadedOf at hl; rw [hf] at hl; simp at hl)
  · intro d2 hd2 a henv hso
    rw [hchar]
    exact List.mem_filterMap.mpr ⟨d2, hd2, by simp [loadedOf, henv, hso]⟩
  · have hgen : ∀ ds : List AdapterDecl,
        (ds.filterMap (fun d2 => (loadedOf env d2).map (fun a => (d2.name, a)))).map Prod.fst
          = (ds.filter (fun d2 => (loadedOf env d2).isSome)).map AdapterDecl.name := by
      intro ds
      induction ds with
      | nil => rfl
      | cons d2 ds ih =>
        cases hl : loadedOf env d2 <;>
          simp [List.filterMap_cons, List.filter_cons, hl, ih]
    rw [hchar]
    exact hgen decls
  · unfold loadAllTraced
    simp only [List.filterMap_cons, List.filterMap_append]
    rw [loadLoop_imports]
    simp [importPathOf]

/-- Witness for C5: with `gmail`'s constructor raising, `gmail` is absent
while `memory` (loaded successfully) is present. -/
theorem load_all_isolates_failures_witness :
    (∀ a : Adapter, ("gmail", a) ∉ loadAllAdapters gmailFailEnv adapterDefinitions) ∧
    ("memory", demoAdapter) ∈ loadAllAdapters gmailFailEnv adapterDefinitions := by
  have h := load_all_isolates_failures gmailFailEnv adapterDefinitions (by decide)
    ⟨"gmail", "tools.adapters.gmail_adapter", "GmailAdapter"⟩ (by decide) "boom" (Or.inr rfl)
  exact ⟨h.1, h.2.1 ⟨"memory", "tools.adapters.memory_adapter", "MemoryAdapter"⟩
    (by decide) demoAdapter rfl rfl⟩

/-- C6: every adapter in the loaded mapping exposes a required call shape
(`execute` for `file_manager`, `execute` or `process` otherwise), so the
dispatcher's defensive Internal branch is unreachable for loaded tools and
dispatch always invokes `execute` when present, else `process`. -/
theorem loaded_adapters_dispatchable (env : LoadEnv) (decls : List AdapterDecl)
    (name : String) (a : Adapter)
    (hmem : (name, a) ∈ loadAllAdapters env decls) :
    (a.hasExecute = true ∨ a.hasProcess = true) ∧
    (name = "file_manager" → a.hasExecute = true) ∧
    (∀ adapters args now, lookupAdapter adapters name = some a →
        executeToolCore adapters name args now =
          if a.hasExecute then (finishDispatch name now (a.executeFn args), true)
          else (finishDispatch name now (a.processFn args), true)) := by
  have hfold : (name, a) ∈ decls.foldl (insertStep env) [] := by
    have h0 : loadAllAdapters env decls = decls.foldl (insertStep env) [] := by
      unfold loadAllAdapters loadAllTraced
      simp only
      exact loadLoop_result env decls _ []
    rw [h0] at hmem
    exact hmem
  rcases mem_loadFold env decls [] (name, a) hfold with h | ⟨d, hd, hload, hname⟩
  · simp at h
  · have hso : shapeOk d.name a = true := by
      unfold loadedOf at hload
      cases henv : env d with
      | importError m2 => rw [henv] at hload; simp at hload
      | classMissing => rw [henv] at hload; simp at hload
      | initError m2 => rw [henv] at hload; simp at hload
      | loaded a2 =>
        rw [henv] at hload
        have hload2 : (if shapeOk d.name a2 = true then some a2 else none) = some a := hload
        by_cases hs : shapeOk d.name a2
        · rw [if_pos hs] at hload2
          simp only [Option.some.injEq] at hload2
          rw [← hload2]
          exact hs
        · rw [if_neg hs] at hload2
          simp at hload2
    simp only at hname
    rw [← hname] at hso
    unfold shapeOk at hso
    have hcall : a.hasExecute = true ∨ a.hasProcess = true := by
      by_cases hfm : name = "file_manager"
      · rw [if_pos hfm] at hso
        exact Or.inl hso
      · rw [if_neg hfm] at hso
        rcases Bool.or_eq_true_iff.mp hso with h2 | h2
        · exact Or.inr h2
        · exact Or.inl h2
    refine ⟨hcall, ?_, ?_⟩
    · intro hfm
      rw [if_pos hfm] at hso
      exact hso
    · intro adapters args now hlook
      unfold executeToolCore
      rw [hlook]
      by_cases he : a.hasExecute = true
      · simp [he]
      · have hp : a.hasProcess = true := by
          rcases hcall with h2 | h2
          · exact absurd h2 he
          · exact h2
        simp only [Bool.not_eq_true] at he
        simp [he, hp]

/-- Witness for C6: with only `memory` loaded, its adapter is dispatchable
and dispatch uses its `execute` shape. -/
theorem loaded_adapters_dispatchable_witness :
    (demoAdapter.hasExecute = true ∨ demoAdapter.hasProcess = true) ∧
    executeToolCore [("memory", demoAdapter)] "memory" (Json.obj []) "now" =
      (finishDispatch "memory" "now" (demoAdapter.executeFn (Json.obj [])), true) := by
  have hload : loadAllAdapters memoryOnlyEnv adapterDefinitions
      = [("memory", demoAdapter)] := by rfl
  have h := loaded_adapters_dispatchable memoryOnlyEnv adapterDefinitions "memory" demoAdapter
    (by rw [hload]; exact List.mem_singleton.mpr rfl)
  refine ⟨h.1, ?_⟩
  have h3 := h.2.2 [("memory", demoAdapter)] (Json.obj []) "now" (by rfl)
  rw [h3]
  rfl

end AvaMcp

namespace AvaMcp

/-- An adapter whose `execute` raises `boom`. -/
def boomAdapter : Adapter :=
  { description := none, hasExecute := true, hasProcess := false,
    executeFn := fun _ => .error "boom", processFn := fun _ => .ok .null }

/-- C1 counterexample: a provider exception produces the *default* envelope —
`text` is empty, not the stringified error (which goes only to the context
details). -/
theorem execute_tool_provider_error_cex :
    (executeTool [("t", boomAdapter)] ⟨"t", "\x7b\x7d"⟩ "now").1
        = .reply { code := some .internal, details := some "boom" } ∧
    ∀ r, (executeTool [("t", boomAdapter)] ⟨"t", "\x7b\x7d"⟩ "now").1 = .reply r →
      r.resp.text ≠ "boom" := by
  have h : (executeTool [("t", boomAdapter)] ⟨"t", "\x7b\x7d"⟩ "now").1
      = .reply { code := some .internal, details := some "boom" } := rfl
  refine ⟨h, ?_⟩
  intro r hr
  rw [h] at hr
  simp only [ExecResult.reply.injEq] at hr
  rw [← hr]
  decide

/-- C1 amended: a provider exception during dispatch is caught — never
propagated — and turned into the default envelope (`success = false`,
`text = ""`) with the transport context set to Internal and the stringified
error in the details. -/
theorem execute_tool_provider_error (adapters : List (String × Adapter))
    (req : ToolRequest) (now : String) (args : Json) (a : Adapter) (e : String)
    (hparse : Json.loads req.parameters = some args)
    (hfound : lookupAdapter adapters req.tool_name = some a)
    (hraise : (a.hasExecute = true ∧ a.executeFn args = .error e) ∨
              (a.hasExecute = false ∧ a.hasProcess = true ∧ a.processFn args = .error e)) :
    executeTool adapters req now
        = (.reply { code := some .internal, details := some e }, true) := by
  unfold executeTool
  rw [hparse]
  unfold executeToolCore
  rw [hfound]
  rcases hraise with ⟨he, herr⟩ | ⟨he, hp, herr⟩
  · simp [he, finishDispatch, herr]
  · simp [he, hp, finishDispatch, herr]

/-- Witness for C1 (amended) at a concrete raising provider. -/
theorem execute_tool_provider_error_witness :
    executeTool [("t", boomAdapter)] ⟨"t", "\x7b\x7d"⟩ "now"
        = (.reply { code := some .internal, details := some "boom" }, true) :=
  execute_tool_provider_error [("t", boomAdapter)] ⟨"t", "\x7b\x7d"⟩ "now"
    (Json.obj []) boomAdapter "boom" rfl rfl (Or.inl ⟨rfl, rfl⟩)

/-- `content`'s value is not a nonempty sequence headed by a mapping. -/
def badContentShape : Json → Prop
  | .arr (.obj _ :: _) => False
  | _ => True

/-- The value is not a mapping. -/
def notDict : Json → Prop
  | .obj _ => False
  | _ => True

/-- C2 counterexample: for `\x7b"content": [\x7b\x7d]\x7d` — a mapping whose
`content` is present but whose first element carries no `text` — the code
yields the empty string, not the string form of the entire mapping. -/
theorem summary_branches_cex :
    computeMainText (Json.obj [("content", Json.arr [Json.obj []])]) = .ok (.str "") ∧
    pyStr (Json.obj [("content", Json.arr [Json.obj []])]) ≠ "" := by
  constructor
  · rfl
  · decide

/-- C2 amended: if the mapping carries `content` whose value is a nonempty
sequence headed by a mapping, the summary is that element's `text` value
(defaulting to the empty string); if it carries `content` of any other
shape, the access raises and the dispatch fails; a mapping without
`content` and a non-mapping summarize to their string form. -/
theorem execute_summary_branches (raw : Json) :
    (∀ kvs ekvs tail, raw = .obj kvs →
        fieldLookup kvs "content" = some (.arr (.obj ekvs :: tail)) →
        computeMainText raw = .ok ((fieldLookup ekvs "text").getD (.str ""))) ∧
    (∀ kvs c, raw = .obj kvs → fieldLookup kvs "content" = some c →
        badContentShape c → ∃ e, computeMainText raw = .error e) ∧
    (∀ kvs, raw = .obj kvs → fieldLookup kvs "content" = none →
        computeMainText raw = .ok (.str (pyStr raw))) ∧
    (notDict raw → computeMainText raw = .ok (.str (pyStr raw))) := by
  refine ⟨?_, ?_, ?_, ?_⟩
  · rintro kvs ekvs tail rfl hlook
    simp only [computeMainText, hasField, hlook, Option.isSome_some, if_true]
    rfl
  · rintro kvs c rfl hlook hbad
    simp only [computeMainText, hasField, hlook, Option.isSome_some, if_true]
    match c, hbad with
    | .null, _ => exact ⟨_, rfl⟩
    | .bool b, _ => exact ⟨_, rfl⟩
    | .num n, _ => exact ⟨_, rfl⟩
    | .str s, _ =>
      cases hs : s.data with
      | nil =>
        have h2 : pyIndexZero (.str s) = .error "IndexError: string index out of range" := by
          simp [pyIndexZero, hs]
        exact ⟨"IndexError: string index out of range", by rw [h2]; rfl⟩
      | cons ch cs =>
        have h2 : pyIndexZero (.str s) = .ok (.str (String.mk [ch])) := by
          simp [pyIndexZero, hs]
        exact ⟨"AttributeError: object has no attribute \x27get\x27", by rw [h2]; rfl⟩
    | .obj kvs2, _ => exact ⟨_, rfl⟩
    | .arr [], _ => exact ⟨_, rfl⟩
    | .arr (.null :: t), _ => exact ⟨_, rfl⟩
    | .arr (.bool b :: t), _ => exact ⟨_, rfl⟩
    | .arr (.num n :: t), _ => exact ⟨_, rfl⟩
    | .arr (.str s :: t), _ => exact ⟨_, rfl⟩
    | .arr (.arr xs :: t), _ => exact ⟨_, rfl⟩
    | .arr (.obj e2 :: t), hb => exact hb.elim
  · rintro kvs rfl hlook
    simp [computeMainText, hasField, hlook]
  · intro hnd
    match raw, hnd with
    | .null, _ => rfl
    | .bool b, _ => rfl
    | .num n, _ => rfl
    | .str s, _ => rfl
    | .arr xs, _ => rfl

/-- Witness for C2 (amended): the well-shaped raw result yields its `text`. -/
theorem execute_summary_branches_witness :
    computeMainText (Json.obj [("content", Json.arr [Json.obj [("text", Json.str "hello")]])])
      = .ok (.str "hello") :=
  (execute_summary_branches _).1 [("content", Json.arr [Json.obj [("text", Json.str "hello")]])]
    [("text", Json.str "hello")] [] rfl rfl

/-- C3: an unknown tool name with well-formed parameters yields NotFound,
the default envelope (`success = false`), and no provider call. -/
theorem execute_tool_not_found (adapters : List (String × Adapter))
    (req : ToolRequest) (now : String) (args : Json)
    (hparse : Json.loads req.parameters = some args)
    (habsent : lookupAdapter adapters req.tool_name = none) :
    executeTool adapters req now =
      (.reply { code := some .notFound,
                details := some ("Tool " ++ req.tool_name ++ " not found") }, false) ∧
    (∀ r, (executeTool adapters req now).1 = .reply r → r.resp.success = false) ∧
    (executeTool adapters req now).2 = false := by
  have h : executeTool adapters req now =
      (.reply { code := some .notFound,
                details := some ("Tool " ++ req.tool_name ++ " not found") }, false) := by
    unfold executeTool
    rw [hparse]
    unfold executeToolCore
    rw [habsent]
  refine ⟨h, ?_, by rw [h]⟩
  intro r hr
  rw [h] at hr
  simp only [ExecResult.reply.injEq] at hr
  rw [← hr]

/-- Witness for C3: `ExecuteTool("nonexistent-name", "\x7b\x7d")` on an
empty adapter set. -/
theorem execute_tool_not_found_witness :
    executeTool [] ⟨"nonexistent-name", "\x7b\x7d"⟩ "now" =
      (.reply { code := some .notFound,
                details := some ("Tool " ++ "nonexistent-name" ++ " not found") }, false) :=
  (execute_tool_not_found [] ⟨"nonexistent-name", "\x7b\x7d"⟩ "now" (Json.obj []) rfl rfl).1

/-- An adapter whose `execute` returns `\x7b"content": [\x7b"text": "hello"\x7d]\x7d`. -/
def helloAdapter : Adapter :=
  { description := none, hasExecute := true, hasProcess := false,
    executeFn := fun _ => .ok (.obj [("content", .arr [.obj [("text", .str "hello")]])]),
    processFn := fun _ => .ok .null }

/-- C7: a successful dispatch serializes the raw result in full into the
envelope, and the serialization is lossless: deserializing `raw_result`
returns the provider's original value. -/
theorem execute_tool_success_roundtrip (adapters : List (String × Adapter))
    (req : ToolRequest) (now : String) (args : Json) (a : Adapter) (raw : Json) (t : String)
    (hparse : Json.loads req.parameters = some args)
    (hfound : lookupAdapter adapters req.tool_name = some a)
    (hcall : (a.hasExecute = true ∧ a.executeFn args = .ok raw) ∨
             (a.hasExecute = false ∧ a.hasProcess = true ∧ a.processFn args = .ok raw))
    (htext : computeMainText raw = .ok (.str t)) :
    executeTool adapters req now =
      (.reply { resp := { success := true, text := t, raw_result := Json.dumps raw,
                          tool_name := req.tool_name, timestamp := now } }, true) ∧
    Json.loads (Json.dumps raw) = some raw := by
  refine ⟨?_, Json.loads_dumps raw⟩
  unfold executeTool
  rw [hparse]
  unfold executeToolCore
  rw [hfound]
  rcases hcall with ⟨he, hok⟩ | ⟨he, hp, hok⟩
  · simp [he, finishDispatch, hok, htext, protoText]
  · simp [he, hp, finishDispatch, hok, htext, protoText]

/-- Witness for C7: the provider returning
`\x7b"content": [\x7b"text": "hello"\x7d]\x7d` yields `text = "hello"` and a
round-tripping `raw_result`. -/
theorem execute_tool_success_roundtrip_witness :
    executeTool [("t", helloAdapter)] ⟨"t", "\x7b\x7d"⟩ "now" =
      (.reply { resp := { success := true, text := "hello",
                          raw_result := Json.dumps (.obj [("content",
                            .arr [.obj [("text", .str "hello")]])]),
                          tool_name := "t", timestamp := "now" } }, true) ∧
    Json.loads (Json.dumps (Json.obj [("content", .arr [.obj [("text", .str "hello")]])]))
      = some (.obj [("content", .arr [.obj [("text", .str "hello")]])]) :=
  execute_tool_success_roundtrip [("t", helloAdapter)] ⟨"t", "\x7b\x7d"⟩ "now"
    (Json.obj []) helloAdapter (.obj [("content", .arr [.obj [("text", .str "hello")]])])
    "hello" rfl rfl (Or.inl ⟨rfl, rfl⟩) rfl

/-- The failure was reported to the caller as a client-error response. -/
def reportsClientError (r : ExecResult) : Prop :=
  ∃ rep, r = .reply rep ∧ rep.code = some .invalidArgument

/-- C9 counterexample: a malformed payload makes `json.loads` raise out of
the handler — the outcome is an unhandled fault, not a client-error reply
(though indeed no provider is called). -/
theorem bad_params_raises_cex :
    (executeTool [("gmail", demoAdapter)] ⟨"gmail", "not json"⟩ "now").1
        = .raised "json.decoder.JSONDecodeError" ∧
    ¬ reportsClientError (executeTool [("gmail", demoAdapter)] ⟨"gmail", "not json"⟩ "now").1 ∧
    (executeTool [("gmail", demoAdapter)] ⟨"gmail", "not json"⟩ "now").2 = false := by
  have h : (executeTool [("gmail", demoAdapter)] ⟨"gmail", "not json"⟩ "now").1
      = .raised "json.decoder.JSONDecodeError" := rfl
  refine ⟨h, ?_, rfl⟩
  rintro ⟨rep, hrep, _⟩
  rw [h] at hrep
  exact absurd hrep (by simp)

/-- C9 amended: a payload that fails to deserialize raises before any
adapter lookup or dispatch — no provider call is made — and the exception
propagates out of the handler as an unhandled fault rather than being
reported as a typed client error. -/
theorem execute_tool_bad_params_raises (adapters : List (String × Adapter))
    (req : ToolRequest) (now : String)
    (hbad : Json.loads req.parameters = none) :
    executeTool adapters req now = (.raised "json.decoder.JSONDecodeError", false) := by
  unfold executeTool
  rw [hbad]

/-- Witness for C9 (amended). -/
theorem execute_tool_bad_params_raises_witness :
    executeTool [("gmail", demoAdapter)] ⟨"gmail", "not json"⟩ "now"
        = (.raised "json.decoder.JSONDecodeError", false) :=
  execute_tool_bad_params_raises [("gmail", demoAdapter)] ⟨"gmail", "not json"⟩ "now" rfl

/-- Every name in a schema's `required` list occurs among its properties. -/
def requiredCovered (s : InputSchema) : Bool :=
  s.required.all (fun f => s.properties.any (fun p => p.1 == f))

theorem schemaFor_required_covered (name : String) :
    requiredCovered (schemaFor name) = true := by
  unfold schemaFor
  split_ifs <;> decide

/-- C4: `ListTools` reports `total_count` equal to the number of loaded
adapters, and every tool descriptor — the dedicated schemas as well as the
empty fallback — lists under `required` only fields present in its
properties mapping. -/
theorem list_tools_count_and_required_covered
    (adapters : List (String × Adapter)) (now : String) :
    (listToolsImpl adapters now).total_count = adapters.length ∧
    ∀ t ∈ getAvailableTools adapters, requiredCovered t.inputSchema = true := by
  constructor
  · simp [listToolsImpl, getAvailableTools]
  · intro t ht
    simp only [getAvailableTools, List.mem_map] at ht
    obtain ⟨p, hp, rfl⟩ := ht
    exact schemaFor_required_covered p.1

/-- Witness for C4 on a singleton adapter set. -/
theorem list_tools_count_and_required_covered_witness :
    (listToolsImpl [("vision", demoAdapter)] "ts").total_count
        = [("vision", demoAdapter)].length ∧
    requiredCovered (schemaFor "vision") = true := by
  have h := list_tools_count_and_required_covered [("vision", demoAdapter)] "ts"
  refine ⟨h.1, ?_⟩
  exact h.2 { name := "vision", description := "Ava Bot vision tool",
              inputSchema := schemaFor "vision" } (List.mem_singleton.mpr rfl)

/-- C10: the request counter starts at zero, is incremented by exactly one
at the start of every `ListTools` and every `ExecuteTool` call — whatever
the outcome — is untouched by `Health`, and is non-decreasing across any
call sequence. -/
theorem request_counter_behaviour (adapters : List (String × Adapter)) :
    initSrvState.request_count = 0 ∧
    (∀ (s : SrvState) (now uptime : String), (healthRpc adapters s now uptime).1 = s) ∧
    (∀ (s : SrvState) (now : String),
        (listToolsRpc adapters s now).1.request_count = s.request_count + 1) ∧
    (∀ (s : SrvState) (req : ToolRequest) (now : String),
        (executeToolRpc adapters s req now).1.request_count = s.request_count + 1) ∧
    (∀ (s : SrvState) (calls : List RpcCall),
        (runCalls adapters s calls).request_count = s.request_count + countedCalls calls) ∧
    (∀ (s : SrvState) (calls : List RpcCall),
        s.request_count ≤ (runCalls adapters s calls).request_count) := by
  have hrun : ∀ (calls : List RpcCall) (s : SrvState),
      (runCalls adapters s calls).request_count = s.request_count + countedCalls calls := by
    intro calls
    induction calls with
    | nil => intro s; simp [runCalls, countedCalls]
    | cons c cs ih =>
      intro s
      cases c with
      | health now uptime => simp [runCalls, stepCall, healthRpc, countedCalls, ih]
      | listTools now =>
        simp only [runCalls, stepCall, listToolsRpc, countedCalls, ih]
        omega
      | execTool req now =>
        simp only [runCalls, stepCall, executeToolRpc, countedCalls, ih]
        omega
  refine ⟨rfl, fun s now uptime => rfl, fun s now => rfl, fun s req now => rfl,
    fun s calls => hrun calls s, fun s calls => by rw [hrun calls s]; omega⟩

end AvaMcp
